import Mathlib

/-!
Verification of the mock routing layer of `safe_client_libs`
(`safe_core/src/client/mock/routing.rs`), the FFI error code table
(`src/ffi/errors.rs`) and the FFI mutable-data entry-actions module
(`src/ffi/low_level_api/mutable_data/entry_actions.rs`).

The Rust code is shallowly embedded: every operation of the request pipeline
becomes a pure Lean function from the routing state and the vault (the Store)
to an operation result recording the updated quota countdown, the updated
vault and the list of events delivered on the event channel.  The vault
itself (`vault.rs`), the `routing` crate's data types and the hashing
primitive are external to the given sources; they are modelled from the
spec's Store contract and data model, and the sha3-256 hash is kept as an
abstract function parameter throughout.
-/

/-- Names in the XOR address space; modelled as natural numbers. -/
abbrev XorName := Nat

/-- A sign::PublicKey; modelled as a natural number (opaque key material). -/
abbrev PublicKey := Nat

/-- Message correlation identifier. -/
abbrev MessageId := Nat

/-- Modelled from the spec: the reserved "session packet" type tag used to
represent an account's root record.  Its numeric value is defined in the
external `routing` crate; only its role as a distinguished constant matters. -/
def TYPE_TAG_SESSION_PACKET : Nat := 0

/-- Errors surfaced in response payloads (`routing::ClientError`).  Payload-free
variants suffice for the claims; `networkOther` carries its message string as
in the source (`ClientError::NetworkOther(String)`). -/
inductive ClientError where
  | accessDenied
  | noSuchAccount
  | accountExists
  | noSuchData
  | dataExists
  | noSuchEntry
  | invalidOwners
  | invalidSuccessor (current : Nat)
  | networkOther (msg : String)
  deriving DecidableEq, Repr

/-- Destination / source authorities (`routing::Authority<XorName>`), restricted
to the variants the mock routing layer constructs or matches on. -/
inductive Authority where
  | clientManager (name : XorName)
  | naeManager (name : XorName)
  | client (name : XorName) (proxyNodeName : XorName)
  deriving DecidableEq, Repr

/-- Modelled from the spec: `DataIdentifier` — discriminated key into the
Store, either `Immutable(name)` or `Mutable(name, tag)` (`mock::DataId`,
defined outside the given sources). -/
inductive DataId where
  | immutable (name : XorName)
  | mutable (name : XorName) (tag : Nat)
  deriving DecidableEq, Repr

/-- Modelled from the spec: content-addressed immutable data
(`routing::ImmutableData`); the name is derived from the content by the
external crate, so it is carried here as a plain field. -/
structure ImmutableData where
  name : XorName
  content : List Nat
  deriving DecidableEq, Repr

/-- A single mutable-data value together with its per-entry version
(`routing::Value`). -/
structure Value where
  content : List Nat
  entry_version : Nat
  deriving DecidableEq, Repr

/-- Modelled from the spec: a mutable record (`routing::MutableData`) —
named, tagged, versioned container with a non-empty owner key set.  Only the
fields the verified operations touch are carried. -/
structure MutableData where
  name : XorName
  tag : Nat
  version : Nat
  owners : List PublicKey
  deriving DecidableEq, Repr

/-- A stored record: immutable or mutable (`mock::vault::Data`). -/
inductive Data where
  | immutable (d : ImmutableData)
  | mutable (d : MutableData)
  deriving DecidableEq, Repr

/-- Opaque account-info counters returned by `get_account_info`. -/
structure AccountInfo where
  mutations_done : Nat
  mutations_available : Nat
  deriving DecidableEq, Repr

/-- Modelled from the spec: an account record — opaque account-info counters,
a set of authorized application keys, and a version counter gating key-list
mutations (optimistic concurrency). -/
structure Account where
  info : AccountInfo
  auth_keys : List PublicKey
  version : Nat
  deriving DecidableEq, Repr

/-- Modelled from the spec: a freshly created account. -/
def Account.fresh : Account :=
  { info := { mutations_done := 0, mutations_available := 1000 }
    auth_keys := []
    version := 0 }

/-- Insert into an association list with map semantics: an existing binding of
the same key is replaced, otherwise the binding is appended (the behaviour of
`BTreeMap::insert` as far as the resulting map is concerned). -/
def mapInsert {K A : Type} [DecidableEq K] (k : K) (a : A) :
    List (K × A) → List (K × A)
  | [] => [(k, a)]
  | (k', a') :: rest =>
      if k = k' then (k, a) :: rest else (k', a') :: mapInsert k a rest

/-- Lookup in an association list (the behaviour of `BTreeMap::get`). -/
def mapFind {K A : Type} [DecidableEq K] (k : K) :
    List (K × A) → Option A
  | [] => none
  | (k', a') :: rest => if k = k' then some a' else mapFind k rest

/-- Modelled from the spec: the Store — all data records and accounts behind
one lock (`mock::vault::Vault`).  Both tables are association lists with map
semantics. -/
structure Vault where
  data : List (DataId × Data)
  accounts : List (XorName × Account)
  deriving DecidableEq, Repr

/-- Modelled from the spec: `get_record(id) -> Option<Record>`. -/
def Vault.getData (v : Vault) (id : DataId) : Option Data :=
  mapFind id v.data

/-- Modelled from the spec: `insert_record(id, Record)`. -/
def Vault.insertData (v : Vault) (id : DataId) (d : Data) : Vault :=
  { v with data := mapInsert id d v.data }

/-- Modelled from the spec: `contains(id) -> bool`. -/
def Vault.containsData (v : Vault) (id : DataId) : Bool :=
  (v.getData id).isSome

/-- Modelled from the spec: `get_account(identity) -> Option<Account>`. -/
def Vault.getAccount (v : Vault) (name : XorName) : Option Account :=
  mapFind name v.accounts

/-- Modelled from the spec: `insert_account(identity)` — creates a fresh
account record at the identity. -/
def Vault.insertAccount (v : Vault) (name : XorName) : Vault :=
  { v with accounts := mapInsert name Account.fresh v.accounts }

/-- The name addressed by an authority. -/
def Authority.name : Authority → XorName
  | .clientManager n => n
  | .naeManager n => n
  | .client n _ => n

/-- Modelled from the spec: `commit_mutation(destination)` — side-effecting
acknowledgment (cost accounting) on the destination's account, invoked exactly
once per accepted mutation.  Only the account table is touched; the data
records are left unchanged. -/
def Vault.commitMutation (v : Vault) (dst : Authority) : Vault :=
  { v with
    accounts :=
      match mapFind dst.name v.accounts with
      | some a =>
          mapInsert dst.name
            { a with
              info :=
                { mutations_done := a.info.mutations_done + 1
                  mutations_available := a.info.mutations_available - 1 } }
            v.accounts
      | none => v.accounts }

/-- The requests the mock routing layer builds and hands to the response
override hook (`routing::Request`, restricted to the operations embedded
here).  `getAccountInfo` exists as a request shape although `get_account_info`
itself never consults the hook. -/
inductive Request where
  | getAccountInfo (msgId : MessageId)
  | putIData (data : ImmutableData) (msgId : MessageId)
  | getIData (name : XorName) (msgId : MessageId)
  | putMData (data : MutableData) (msgId : MessageId) (requester : PublicKey)
  | getMDataVersion (name : XorName) (tag : Nat) (msgId : MessageId)
  | changeMDataOwner (name : XorName) (tag : Nat) (newOwners : List PublicKey)
      (version : Nat) (msgId : MessageId)
  | listAuthKeysAndVersion (msgId : MessageId)
  | insAuthKey (key : PublicKey) (version : Nat) (msgId : MessageId)
  | delAuthKey (key : PublicKey) (version : Nat) (msgId : MessageId)
  deriving DecidableEq, Repr

instance {ε α : Type} [DecidableEq ε] [DecidableEq α] : DecidableEq (Except ε α) :=
  fun x y =>
    match x, y with
    | .ok a, .ok b =>
        if h : a = b then isTrue (by rw [h]) else isFalse (by simp [h])
    | .error a, .error b =>
        if h : a = b then isTrue (by rw [h]) else isFalse (by simp [h])
    | .ok _, .error _ => isFalse (by simp)
    | .error _, .ok _ => isFalse (by simp)

/-- The responses delivered on the event channel (`routing::Response`,
restricted to the operations embedded here). -/
inductive Response where
  | getAccountInfo (res : Except ClientError AccountInfo) (msgId : MessageId)
  | putIData (res : Except ClientError Unit) (msgId : MessageId)
  | getIData (res : Except ClientError ImmutableData) (msgId : MessageId)
  | putMData (res : Except ClientError Unit) (msgId : MessageId)
  | getMDataVersion (res : Except ClientError Nat) (msgId : MessageId)
  | changeMDataOwner (res : Except ClientError Unit) (msgId : MessageId)
  | listAuthKeysAndVersion (res : Except ClientError (List PublicKey × Nat))
      (msgId : MessageId)
  | insAuthKey (res : Except ClientError Unit) (msgId : MessageId)
  | delAuthKey (res : Except ClientError Unit) (msgId : MessageId)
  deriving DecidableEq, Repr

/-- Events pushed onto the event channel (`routing::Event`). -/
inductive Event where
  | connected
  | response (rsp : Response) (src : Authority) (dst : Authority)
  | terminate
  deriving DecidableEq, Repr

/-- The per-session state of the mock `Routing` struct: the signing key of
`full_id`, the (independent) identity of `client_auth`, and the transient
test-only controls.  The response-override hook is a pure function from a
request to an optional response. -/
structure RoutingState where
  clientKey : PublicKey
  clientName : XorName
  clientProxy : XorName
  maxOpsCountdown : Option Nat
  timeoutSimulation : Bool
  requestHook : Option (Request → Option Response)

/-- The `client_auth` authority of a session. -/
def RoutingState.clientAuth (s : RoutingState) : Authority :=
  .client s.clientName s.clientProxy

/-- Run the response-override hook, when installed, on a request. -/
def RoutingState.runHook (s : RoutingState) (req : Request) : Option Response :=
  match s.requestHook with
  | some hook => hook req
  | none => none

/-- External collaborators of the pipeline: the sha3-256 hashing primitive
and the Store's two authorization predicates, all used as black boxes by the
source (`authorise_mutation` / `authorise_read` live in `vault.rs`, outside
the given sources; per the spec they are a narrow external contract). -/
structure Env where
  hash : PublicKey → XorName
  authoriseMutation : Vault → Authority → PublicKey → Except ClientError Unit
  authoriseRead : Vault → Authority → XorName → Except ClientError Unit

/-- The observable outcome of one pipeline operation: the updated operation
countdown, the updated Store, and the events delivered (in order).  Every
embedded operation's Rust return value is `Ok(())` on these paths, so it is
not carried. -/
structure OpResult where
  countdown : Option Nat
  vault : Vault
  events : List Event
  deriving DecidableEq, Repr

/-- `Routing::simulate_network_errors`: true exactly when the forced-timeout
flag is set. -/
def RoutingState.simulateNetworkErrors (s : RoutingState) : Bool :=
  s.timeoutSimulation

/-- `Routing::verify_network_limits` together with the countdown update it
performs: with the countdown at `some 0` the quota error is produced and the
countdown stays at zero (`network_limits_reached`); otherwise the countdown
decrements by one when finite (`update_network_limits`) and the check
succeeds. -/
def verifyNetworkLimits : Option Nat → Except ClientError Unit × Option Nat
  | some 0 =>
      (.error (.networkOther "Max operations exhausted"), some 0)
  | some (n + 1) => (.ok (), some n)
  | none => (.ok (), none)

/-- `Routing::verify_requester`: an explicitly named requester key must equal
the session's own signing key. -/
def RoutingState.verifyRequester (s : RoutingState) (requester : Option PublicKey) :
    Except ClientError Unit :=
  match requester with
  | none => .ok ()
  | some key =>
      if s.clientKey = key then .ok ()
      else .error (.networkOther "Invalid requester")

/-- `Routing::verify_owner`: the destination must be a `ClientManager`
authority and at least one asserted owner key must hash to its name, else
"invalid owners". -/
def verifyOwner (hash : PublicKey → XorName) (dst : Authority)
    (ownerKeys : List PublicKey) : Except ClientError Unit :=
  match dst with
  | .clientManager dstName =>
      if ownerKeys.any fun ownerKey => hash ownerKey = dstName then .ok ()
      else .error .invalidOwners
  | _ => .error .invalidOwners

/-- `Routing::get_account_info`.  Note: unlike every other operation, the
response-override hook is not consulted.  The `none` result models the
source's panic on a non-`ClientManager` destination. -/
def Routing.getAccountInfo (s : RoutingState) (vault : Vault) (dst : Authority)
    (msgId : MessageId) : Option OpResult :=
  if s.simulateNetworkErrors then
    some ⟨s.maxOpsCountdown, vault, []⟩
  else
    let checked := verifyNetworkLimits s.maxOpsCountdown
    match checked.1 with
    | .error e =>
        some ⟨checked.2, vault,
          [.response (.getAccountInfo (.error e) msgId) dst s.clientAuth]⟩
    | .ok _ =>
        match dst with
        | .clientManager name =>
            let res : Except ClientError AccountInfo :=
              match vault.getAccount name with
              | some account => .ok account.info
              | none => .error .noSuchAccount
            some ⟨checked.2, vault,
              [.response (.getAccountInfo res msgId) dst s.clientAuth]⟩
        | _ => none

/-- `Routing::put_idata`: hook, fault check, quota check, mutation
authorization, then the dedup insert logic, with `commit_mutation` applied to
every successful outcome. -/
def Routing.putIData (env : Env) (s : RoutingState) (vault : Vault)
    (dst : Authority) (data : ImmutableData) (msgId : MessageId) : OpResult :=
  let naeAuth := Authority.naeManager data.name
  match s.runHook (.putIData data msgId) with
  | some rsp => ⟨s.maxOpsCountdown, vault, [.response rsp naeAuth s.clientAuth]⟩
  | none =>
    if s.simulateNetworkErrors then
      ⟨s.maxOpsCountdown, vault, []⟩
    else
      let checked := verifyNetworkLimits s.maxOpsCountdown
      let step : Except ClientError Unit × Vault :=
        match checked.1 with
        | .error e => (.error e, vault)
        | .ok _ =>
            match env.authoriseMutation vault dst s.clientKey with
            | .error e => (.error e, vault)
            | .ok _ =>
                match vault.getData (.immutable data.name) with
                | some (.immutable _) => (.ok (), vault.commitMutation dst)
                | some _ => (.error .dataExists, vault)
                | none =>
                    (.ok (),
                      (vault.insertData (.immutable data.name)
                        (.immutable data)).commitMutation dst)
      ⟨checked.2, step.2,
        [.response (.putIData step.1 msgId) naeAuth s.clientAuth]⟩

/-- `Routing::get_idata`: hook, fault check, quota check, read authorization,
then lookup. -/
def Routing.getIData (env : Env) (s : RoutingState) (vault : Vault)
    (dst : Authority) (name : XorName) (msgId : MessageId) : OpResult :=
  let naeAuth := Authority.naeManager name
  match s.runHook (.getIData name msgId) with
  | some rsp => ⟨s.maxOpsCountdown, vault, [.response rsp naeAuth s.clientAuth]⟩
  | none =>
    if s.simulateNetworkErrors then
      ⟨s.maxOpsCountdown, vault, []⟩
    else
      let checked := verifyNetworkLimits s.maxOpsCountdown
      let res : Except ClientError ImmutableData :=
        match checked.1 with
        | .error e => .error e
        | .ok _ =>
            match env.authoriseRead vault dst name with
            | .error e => .error e
            | .ok _ =>
                match vault.getData (.immutable name) with
                | some (.immutable d) => .ok d
                | _ => .error .noSuchData
      ⟨checked.2, vault, [.response (.getIData res msgId) naeAuth s.clientAuth]⟩

/-- `Routing::put_mdata`: hook, fault check, quota check; then the
session-packet branch (account creation, gated only on `contains_data`) or
the normal branch (mutation authorization, owner check, existence check,
insert, commit).  The `none` result models the source's panic on a
non-`ClientManager` destination in the session-packet branch. -/
def Routing.putMData (env : Env) (s : RoutingState) (vault : Vault)
    (dst : Authority) (data : MutableData) (msgId : MessageId)
    (requester : PublicKey) : Option OpResult :=
  let dataName := DataId.mutable data.name data.tag
  let naeAuth := Authority.naeManager data.name
  match s.runHook (.putMData data msgId requester) with
  | some rsp =>
      some ⟨s.maxOpsCountdown, vault, [.response rsp naeAuth s.clientAuth]⟩
  | none =>
    if s.simulateNetworkErrors then
      some ⟨s.maxOpsCountdown, vault, []⟩
    else
      let checked := verifyNetworkLimits s.maxOpsCountdown
      match checked.1 with
      | .error e =>
          some ⟨checked.2, vault,
            [.response (.putMData (.error e) msgId) naeAuth s.clientAuth]⟩
      | .ok _ =>
        if data.tag = TYPE_TAG_SESSION_PACKET then
          match dst with
          | .clientManager dstName =>
              if vault.containsData dataName then
                some ⟨checked.2, vault,
                  [.response (.putMData (.error .accountExists) msgId)
                    naeAuth s.clientAuth]⟩
              else
                some ⟨checked.2,
                  (vault.insertAccount dstName).insertData dataName
                    (.mutable data),
                  [.response (.putMData (.ok ()) msgId) naeAuth s.clientAuth]⟩
          | _ => none
        else
          let step : Except ClientError Unit × Vault :=
            match env.authoriseMutation vault dst s.clientKey with
            | .error e => (.error e, vault)
            | .ok _ =>
                match verifyOwner env.hash dst data.owners with
                | .error e => (.error e, vault)
                | .ok _ =>
                    if vault.containsData dataName then (.error .dataExists, vault)
                    else
                      (.ok (),
                        (vault.insertData dataName
                          (.mutable data)).commitMutation dst)
          some ⟨checked.2, step.2,
            [.response (.putMData step.1 msgId) naeAuth s.clientAuth]⟩

/-- `Routing::with_mdata`: the generic template every mutable-record read and
mutate operation funnels through — hook, fault check, quota check, requester
verification, Store lookup (with the "no such account" / "no such data"
distinction on a miss), then the caller-supplied body `f`, with `g` wrapping
the outcome into the operation's response. -/
def Routing.withMData {R : Type} (s : RoutingState) (vault : Vault)
    (name : XorName) (tag : Nat) (request : Request)
    (requester : Option PublicKey)
    (f : MutableData → Vault → Except ClientError R × Vault)
    (g : Except ClientError R → Response) : OpResult :=
  let naeAuth := Authority.naeManager name
  match s.runHook request with
  | some rsp => ⟨s.maxOpsCountdown, vault, [.response rsp naeAuth s.clientAuth]⟩
  | none =>
    if s.simulateNetworkErrors then
      ⟨s.maxOpsCountdown, vault, []⟩
    else
      let checked := verifyNetworkLimits s.maxOpsCountdown
      match checked.1 with
      | .error e =>
          ⟨checked.2, vault, [.response (g (.error e)) naeAuth s.clientAuth]⟩
      | .ok _ =>
        match s.verifyRequester requester with
        | .error e =>
            ⟨checked.2, vault, [.response (g (.error e)) naeAuth s.clientAuth]⟩
        | .ok _ =>
            let step : Except ClientError R × Vault :=
              match vault.getData (.mutable name tag) with
              | some (.mutable d) => f d vault
              | _ =>
                  if tag = TYPE_TAG_SESSION_PACKET then
                    (.error .noSuchAccount, vault)
                  else (.error .noSuchData, vault)
            ⟨checked.2, step.2,
              [.response (g step.1) naeAuth s.clientAuth]⟩

/-- `Routing::read_mdata`: `with_mdata` with no requester, read authorization
and a pure projection. -/
def Routing.readMData {R : Type} (env : Env) (s : RoutingState) (vault : Vault)
    (dst : Authority) (name : XorName) (tag : Nat) (request : Request)
    (f : MutableData → Except ClientError R)
    (g : Except ClientError R → Response) : OpResult :=
  Routing.withMData s vault name tag request none
    (fun d v =>
      match env.authoriseRead v dst name with
      | .error e => (.error e, v)
      | .ok _ => (f d, v))
    g

/-- `Routing::mutate_mdata`: `with_mdata` with an explicit requester and a
body that authorizes the mutation, applies the caller-supplied transformation
to the record, writes the transformed record back and commits the mutation —
leaving the Store untouched on any failure. -/
def Routing.mutateMData {R : Type} (env : Env) (s : RoutingState) (vault : Vault)
    (dst : Authority) (name : XorName) (tag : Nat) (request : Request)
    (requester : PublicKey)
    (f : MutableData → Except ClientError R × MutableData)
    (g : Except ClientError R → Response) : OpResult :=
  Routing.withMData s vault name tag request (some requester)
    (fun d v =>
      match env.authoriseMutation v dst s.clientKey with
      | .error e => (.error e, v)
      | .ok _ =>
          match f d with
          | (.error e, _) => (.error e, v)
          | (.ok out, d') =>
              (.ok out,
                (v.insertData (.mutable name tag)
                  (.mutable d')).commitMutation dst))
    g

/-- `Routing::get_mdata_version` as an instance of `read_mdata`. -/
def Routing.getMDataVersion (env : Env) (s : RoutingState) (vault : Vault)
    (dst : Authority) (name : XorName) (tag : Nat) (msgId : MessageId) : OpResult :=
  Routing.readMData env s vault dst name tag (.getMDataVersion name tag msgId)
    (fun d => .ok d.version)
    (fun res => .getMDataVersion res msgId)

/-- Modelled from the spec: `MutableData::change_owner` (external `routing`
crate) — an accepted mutation replaces the owner set by the single new owner
and bumps the version by exactly one; a version that is not exactly one more
than the current version is rejected. -/
def MutableData.changeOwner (d : MutableData) (newOwner : PublicKey)
    (version : Nat) : Except ClientError Unit × MutableData :=
  if version = d.version + 1 then
    (.ok (), { d with owners := [newOwner], version := version })
  else (.error (.invalidSuccessor d.version), d)

/-- `Routing::change_mdata_owner`: a non-singleton new-owner set is rejected
with "invalid owners" immediately — before the hook, the fault check and the
quota check; a singleton set proceeds through `mutate_mdata` with the
transformation that re-checks ownership (remapping "invalid owners" to
"access denied") and requires the requester's derived name to equal the
destination account's name. -/
def Routing.changeMDataOwner (env : Env) (s : RoutingState) (vault : Vault)
    (dst : Authority) (name : XorName) (tag : Nat)
    (newOwners : List PublicKey) (version : Nat) (msgId : MessageId) : OpResult :=
  match newOwners with
  | [newOwner] =>
      let requester := s.clientKey
      let requesterName := env.hash requester
      Routing.mutateMData env s vault dst name tag
        (.changeMDataOwner name tag [newOwner] version msgId) requester
        (fun d =>
          match dst with
          | .clientManager dstName =>
              match verifyOwner env.hash dst d.owners with
              | .error .invalidOwners => (.error .accessDenied, d)
              | .error e => (.error e, d)
              | .ok _ =>
                  if requesterName ≠ dstName then (.error .accessDenied, d)
                  else d.changeOwner newOwner version
          | _ => (.error .invalidOwners, d))
        (fun res => .changeMDataOwner res msgId)
  | _ =>
      ⟨s.maxOpsCountdown, vault,
        [.response (.changeMDataOwner (.error .invalidOwners) msgId)
          dst s.clientAuth]⟩

/-- Modelled from the spec: `Account::ins_auth_key` — the presented version
must be exactly one more than the stored version (optimistic concurrency);
on success the key is added to the set and the version advances. -/
def Account.insAuthKey (a : Account) (key : PublicKey) (version : Nat) :
    Except ClientError Unit × Account :=
  if version = a.version + 1 then
    (.ok (),
      { a with
        auth_keys := if key ∈ a.auth_keys then a.auth_keys else a.auth_keys ++ [key]
        version := version })
  else (.error (.invalidSuccessor a.version), a)

/-- Modelled from the spec: `Account::del_auth_key` — same version gate; the
key must be present. -/
def Account.delAuthKey (a : Account) (key : PublicKey) (version : Nat) :
    Except ClientError Unit × Account :=
  if version = a.version + 1 then
    if key ∈ a.auth_keys then
      (.ok (),
        { a with
          auth_keys := a.auth_keys.filter fun k => k ≠ key
          version := version })
    else (.error .noSuchData, a)
  else (.error (.invalidSuccessor a.version), a)

/-- `Routing::list_auth_keys_and_version`: hook, fault check, quota check,
then an account lookup.  The `none` result models the source's panic on a
non-`ClientManager` destination. -/
def Routing.listAuthKeysAndVersion (s : RoutingState) (vault : Vault)
    (dst : Authority) (msgId : MessageId) : Option OpResult :=
  match s.runHook (.listAuthKeysAndVersion msgId) with
  | some rsp =>
      some ⟨s.maxOpsCountdown, vault, [.response rsp dst s.clientAuth]⟩
  | none =>
    if s.simulateNetworkErrors then
      some ⟨s.maxOpsCountdown, vault, []⟩
    else
      let checked := verifyNetworkLimits s.maxOpsCountdown
      match checked.1 with
      | .error e =>
          some ⟨checked.2, vault,
            [.response (.listAuthKeysAndVersion (.error e) msgId) dst s.clientAuth]⟩
      | .ok _ =>
          match dst with
          | .clientManager name =>
              let res : Except ClientError (List PublicKey × Nat) :=
                match vault.getAccount name with
                | some account => .ok (account.auth_keys, account.version)
                | none => .error .noSuchAccount
              some ⟨checked.2, vault,
                [.response (.listAuthKeysAndVersion res msgId) dst s.clientAuth]⟩
          | _ => none

/-- `Routing::ins_auth_key`: hook, fault check, quota check, then the account
mutation.  The `none` result models the source's panic on a
non-`ClientManager` destination. -/
def Routing.insAuthKey (s : RoutingState) (vault : Vault) (dst : Authority)
    (key : PublicKey) (version : Nat) (msgId : MessageId) : Option OpResult :=
  match s.runHook (.insAuthKey key version msgId) with
  | some rsp =>
      some ⟨s.maxOpsCountdown, vault, [.response rsp dst s.clientAuth]⟩
  | none =>
    if s.simulateNetworkErrors then
      some ⟨s.maxOpsCountdown, vault, []⟩
    else
      let checked := verifyNetworkLimits s.maxOpsCountdown
      match checked.1 with
      | .error e =>
          some ⟨checked.2, vault,
            [.response (.insAuthKey (.error e) msgId) dst s.clientAuth]⟩
      | .ok _ =>
          match dst with
          | .clientManager name =>
              let step : Except ClientError Unit × Vault :=
                match vault.getAccount name with
                | some account =>
                    let updated := account.insAuthKey key version
                    (updated.1,
                      { vault with
                        accounts := mapInsert name updated.2 vault.accounts })
                | none => (.error .noSuchAccount, vault)
              some ⟨checked.2, step.2,
                [.response (.insAuthKey step.1 msgId) dst s.clientAuth]⟩
          | _ => none

/-- `Routing::del_auth_key`: hook, fault check, quota check, then the account
mutation.  The `none` result models the source's panic on a
non-`ClientManager` destination. -/
def Routing.delAuthKey (s : RoutingState) (vault : Vault) (dst : Authority)
    (key : PublicKey) (version : Nat) (msgId : MessageId) : Option OpResult :=
  match s.runHook (.delAuthKey key version msgId) with
  | some rsp =>
      some ⟨s.maxOpsCountdown, vault, [.response rsp dst s.clientAuth]⟩
  | none =>
    if s.simulateNetworkErrors then
      some ⟨s.maxOpsCountdown, vault, []⟩
    else
      let checked := verifyNetworkLimits s.maxOpsCountdown
      match checked.1 with
      | .error e =>
          some ⟨checked.2, vault,
            [.response (.delAuthKey (.error e) msgId) dst s.clientAuth]⟩
      | .ok _ =>
          match dst with
          | .clientManager name =>
              let step : Except ClientError Unit × Vault :=
                match vault.getAccount name with
                | some account =>
                    let updated := account.delAuthKey key version
                    (updated.1,
                      { vault with
                        accounts := mapInsert name updated.2 vault.accounts })
                | none => (.error .noSuchAccount, vault)
              some ⟨checked.2, step.2,
                [.response (.delAuthKey step.1 msgId) dst s.clientAuth]⟩
          | _ => none

/-! ## FFI entry actions (`src/ffi/low_level_api/mutable_data/entry_actions.rs`) -/

/-- `routing::EntryAction` — an in-flight mutation descriptor for one entry. -/
inductive EntryAction where
  | ins (v : Value)
  | update (v : Value)
  | del (entry_version : Nat)
  deriving DecidableEq, Repr

/-- Entry keys are byte strings. -/
abbrev EntryKey := List Nat

/-- The collection behind an entry-actions handle: a
`BTreeMap<Vec<u8>, EntryAction>`, embedded as an association list with map
semantics. -/
abbrev EntryActions := List (EntryKey × EntryAction)

/-- `add_action`: insert the supplied action for the key into the collection
(`BTreeMap::insert`, replacing any earlier action for the same key). -/
def addAction (actions : EntryActions) (key : EntryKey)
    (action : EntryAction) : EntryActions :=
  mapInsert key action actions

/-- `mdata_entry_actions_insert`: records an `Ins` action whose value carries
the supplied content at entry version 0. -/
def mdataEntryActionsInsert (actions : EntryActions) (key : EntryKey)
    (value : List Nat) : EntryActions :=
  addAction actions key (.ins { content := value, entry_version := 0 })

/-- `mdata_entry_actions_update`: records an `Update` action at the supplied
entry version. -/
def mdataEntryActionsUpdate (actions : EntryActions) (key : EntryKey)
    (value : List Nat) (entryVersion : Nat) : EntryActions :=
  addAction actions key (.update { content := value, entry_version := entryVersion })

/-- `mdata_entry_actions_delete`: records a `Del` action at the supplied
entry version. -/
def mdataEntryActionsDelete (actions : EntryActions) (key : EntryKey)
    (entryVersion : Nat) : EntryActions :=
  addAction actions key (.del entryVersion)

/-! ## FFI error codes (`src/ffi/errors.rs`) -/

/-- Modelled from the spec: the base constant `CORE_ERROR_START_RANGE` from
`core/errors.rs`, which is outside the given sources; core error codes are
negative, starting at -1. -/
def CORE_ERROR_START_RANGE : Int := -1

/-- `FFI_ERROR_START_RANGE = CORE_ERROR_START_RANGE - 1000`. -/
def FFI_ERROR_START_RANGE : Int := CORE_ERROR_START_RANGE - 1000

/-- `FfiError` — the 22 variants of the FFI error enum.  Payload types that
live outside the given sources (`CoreError`, `SerialisationError`, `NulError`,
`IoError`) are elided; the conversion to `i32` ignores every payload. -/
inductive FfiError where
  | coreError
  | pathNotFound
  | invalidPath
  | permissionDenied
  | localConfigAccessFailed (msg : String)
  | unexpected (msg : String)
  | unsuccessfulEncodeDecode
  | nulError
  | invalidAppHandle
  | invalidMDataEntriesHandle
  | invalidMDataEntryActionsHandle
  | invalidXorNameHandle
  | invalidSelfEncryptorHandle
  | invalidCipherOptHandle
  | invalidEncryptKeyHandle
  | invalidSignKeyHandle
  | operationForbiddenForApp
  | invalidVersionNumber
  | invalidSelfEncryptorReadOffsets
  | invalidIndex
  | unsupportedOperation
  | ioError
  deriving DecidableEq, Repr

/-- `impl Into<i32> for FfiError`: the error-code translation table. -/
def FfiError.toI32 : FfiError → Int
  | .coreError => FFI_ERROR_START_RANGE
  | .pathNotFound => FFI_ERROR_START_RANGE - 1
  | .invalidPath => FFI_ERROR_START_RANGE - 2
  | .permissionDenied => FFI_ERROR_START_RANGE - 3
  | .localConfigAccessFailed _ => FFI_ERROR_START_RANGE - 8
  | .unexpected _ => FFI_ERROR_START_RANGE - 9
  | .unsuccessfulEncodeDecode => FFI_ERROR_START_RANGE - 10
  | .nulError => FFI_ERROR_START_RANGE - 11
  | .invalidAppHandle => FFI_ERROR_START_RANGE - 26
  | .invalidMDataEntriesHandle => FFI_ERROR_START_RANGE - 27
  | .invalidMDataEntryActionsHandle => FFI_ERROR_START_RANGE - 28
  | .invalidXorNameHandle => FFI_ERROR_START_RANGE - 13
  | .invalidSelfEncryptorHandle => FFI_ERROR_START_RANGE - 15
  | .invalidCipherOptHandle => FFI_ERROR_START_RANGE - 16
  | .invalidEncryptKeyHandle => FFI_ERROR_START_RANGE - 17
  | .invalidSignKeyHandle => FFI_ERROR_START_RANGE - 18
  | .operationForbiddenForApp => FFI_ERROR_START_RANGE - 19
  | .invalidVersionNumber => FFI_ERROR_START_RANGE - 21
  | .invalidSelfEncryptorReadOffsets => FFI_ERROR_START_RANGE - 22
  | .invalidIndex => FFI_ERROR_START_RANGE - 23
  | .unsupportedOperation => FFI_ERROR_START_RANGE - 24
  | .ioError => FFI_ERROR_START_RANGE - 25

/-- The variant discriminant of an `FfiError`, ignoring payloads; used to
state that the code table is injective on variants. -/
def FfiError.variantIdx : FfiError → Nat
  | .coreError => 0
  | .pathNotFound => 1
  | .invalidPath => 2
  | .permissionDenied => 3
  | .localConfigAccessFailed _ => 4
  | .unexpected _ => 5
  | .unsuccessfulEncodeDecode => 6
  | .nulError => 7
  | .invalidAppHandle => 8
  | .invalidMDataEntriesHandle => 9
  | .invalidMDataEntryActionsHandle => 10
  | .invalidXorNameHandle => 11
  | .invalidSelfEncryptorHandle => 12
  | .invalidCipherOptHandle => 13
  | .invalidEncryptKeyHandle => 14
  | .invalidSignKeyHandle => 15
  | .operationForbiddenForApp => 16
  | .invalidVersionNumber => 17
  | .invalidSelfEncryptorReadOffsets => 18
  | .invalidIndex => 19
  | .unsupportedOperation => 20
  | .ioError => 21

/-! ## Helper definitions and lemmas for the theorems -/

/-- The countdown state after `k` operations have passed through the quota
check, starting from `c`. -/
def countdownAfter : Nat → Option Nat → Option Nat
  | 0, c => c
  | k + 1, c => countdownAfter k (verifyNetworkLimits c).2

/-- Ordering on countdown states: a finite budget never grows and never
becomes unlimited, an unlimited budget stays unlimited. -/
def countdownLe : Option Nat → Option Nat → Bool
  | some x, some y => x ≤ y
  | none, none => true
  | _, _ => false

/-- The number of bindings for a key in an association list. -/
def countKey {K A : Type} [DecidableEq K] (k : K) (l : List (K × A)) : Nat :=
  l.countP fun p => decide (p.1 = k)

/-- A sample environment for concrete instantiations: the identity hash and
permissive authorization predicates. -/
def sampleEnv : Env :=
  { hash := fun k => k
    authoriseMutation := fun _ _ _ => .ok ()
    authoriseRead := fun _ _ _ => .ok () }

/-- A sample session with a budget of five operations, no forced timeout and
no hook. -/
def sampleState : RoutingState :=
  { clientKey := 1
    clientName := 2
    clientProxy := 3
    maxOpsCountdown := some 5
    timeoutSimulation := false
    requestHook := none }

/-- The empty Store. -/
def emptyVault : Vault := ⟨[], []⟩

/-- C1 counterexample fixtures: a hook answering every request with a fixed
response. -/
def c1Hook : Request → Option Response :=
  fun _ => some (.getAccountInfo (.ok ⟨7, 8⟩) 5)

/-- C1 counterexample fixtures: a session with that hook installed and a
budget of one operation. -/
def c1State : RoutingState :=
  { clientKey := 1, clientName := 2, clientProxy := 3,
    maxOpsCountdown := some 1, timeoutSimulation := false,
    requestHook := some c1Hook }

/-- C1 witness fixtures: a hook answering every request with a fixed
`PutIData` response. -/
def c1wHook : Request → Option Response := fun _ => some (.putIData (.ok ()) 5)

/-- C1 witness fixtures: a session with that hook installed. -/
def c1wState : RoutingState :=
  { clientKey := 1, clientName := 2, clientProxy := 3,
    maxOpsCountdown := some 5, timeoutSimulation := false,
    requestHook := some c1wHook }

/-- C2 counterexample fixtures: a session with the forced-timeout flag set
and no hook installed. -/
def c2State : RoutingState :=
  { clientKey := 1, clientName := 2, clientProxy := 3,
    maxOpsCountdown := none, timeoutSimulation := true,
    requestHook := none }

/-- C5 counterexample fixtures: a Store holding an account at the destination
identity but no session-packet data record for it. -/
def c5Vault : Vault := ⟨[], [(10, Account.fresh)]⟩

/-- C5 counterexample fixtures: a session-packet mutable record. -/
def c5Data : MutableData :=
  { name := 4, tag := TYPE_TAG_SESSION_PACKET, version := 0, owners := [1] }

/-- C4 counterexample fixtures: a Store already holding the immutable record
about to be put again, and an untouched account at the destination name. -/
def c4Vault : Vault :=
  ⟨[(.immutable 4, .immutable ⟨4, [1]⟩)], [(2, Account.fresh)]⟩

/-- C8 witness fixtures: a mutable record owned by key 99. -/
def c8Record : MutableData :=
  { name := 4, tag := 1, version := 0, owners := [99] }

/-- C8 witness fixtures: a Store holding only that record. -/
def c8Vault : Vault := ⟨[(.mutable 4 1, .mutable c8Record)], []⟩

theorem countdownLe_refl (c : Option Nat) : countdownLe c c = true := by
  cases c <;> simp [countdownLe]

theorem countdownLe_verify (c : Option Nat) :
    countdownLe (verifyNetworkLimits c).2 c = true := by
  match c with
  | none => rfl
  | some 0 => simp [verifyNetworkLimits, countdownLe]
  | some (n + 1) => simp [verifyNetworkLimits, countdownLe]

theorem countdownAfter_some (k N : Nat) (h : k ≤ N) :
    countdownAfter k (some N) = some (N - k) := by
  induction k generalizing N with
  | zero => simp [countdownAfter]
  | succ k ih =>
      obtain ⟨m, rfl⟩ : ∃ m, N = m + 1 :=
        ⟨N - 1, by omega⟩
      have : countdownAfter (k + 1) (some (m + 1)) =
          countdownAfter k (some m) := by
        simp [countdownAfter, verifyNetworkLimits]
      rw [this, ih m (by omega)]
      congr 1
      omega

theorem withMData_countdown {R : Type} (s : RoutingState) (vault : Vault)
    (name : XorName) (tag : Nat) (request : Request)
    (requester : Option PublicKey)
    (f : MutableData → Vault → Except ClientError R × Vault)
    (g : Except ClientError R → Response) :
    (Routing.withMData s vault name tag request requester f g).countdown =
        s.maxOpsCountdown ∨
      (Routing.withMData s vault name tag request requester f g).countdown =
        (verifyNetworkLimits s.maxOpsCountdown).2 := by
  unfold Routing.withMData
  rcases h : s.runHook request with _ | rsp
  · simp only
    split
    · left; rfl
    · rcases h2 : (verifyNetworkLimits s.maxOpsCountdown).1 with e | u
      · simp [h2]
      · simp only [h2]
        rcases h3 : s.verifyRequester requester with e | u <;> simp [h3]
  · simp

theorem mapFind_mapInsert {K A : Type} [DecidableEq K] (k : K) (a : A)
    (l : List (K × A)) : mapFind k (mapInsert k a l) = some a := by
  induction l with
  | nil => simp [mapInsert, mapFind]
  | cons p rest ih =>
      obtain ⟨k', a'⟩ := p
      by_cases h : k = k' <;> simp [mapInsert, mapFind, h, ih]

theorem countKey_eq_zero_of_find_none {K A : Type} [DecidableEq K] (k : K)
    (l : List (K × A)) (h : mapFind k l = none) : countKey k l = 0 := by
  induction l with
  | nil => rfl
  | cons p rest ih =>
      obtain ⟨k', a'⟩ := p
      by_cases hk : k = k'
      · simp [mapFind, hk] at h
      · simp only [mapFind, if_neg hk] at h
        have h0 := ih h
        have hk' : k' ≠ k := Ne.symm hk
        simp only [countKey, List.countP_cons] at h0 ⊢
        simp [hk', h0]

theorem countKey_mapInsert {K A : Type} [DecidableEq K] (k : K) (a : A)
    (l : List (K × A)) (h : mapFind k l = none) :
    countKey k (mapInsert k a l) = 1 := by
  induction l with
  | nil => simp [mapInsert, countKey, List.countP_cons]
  | cons p rest ih =>
      obtain ⟨k', a'⟩ := p
      by_cases hk : k = k'
      · simp [mapFind, hk] at h
      · simp only [mapFind, if_neg hk] at h
        simp [mapInsert, if_neg hk, countKey, List.countP_cons, Ne.symm hk]
        have := ih h
        simpa [countKey] using this

theorem mem_keys_mapInsert {K A : Type} [DecidableEq K] (k x : K) (a : A)
    (l : List (K × A)) (hx : x ∈ (mapInsert k a l).map Prod.fst) :
    x = k ∨ x ∈ l.map Prod.fst := by
  induction l with
  | nil => simpa [mapInsert] using hx
  | cons p rest ih =>
      obtain ⟨k', a'⟩ := p
      by_cases hk : k = k'
      · simp only [mapInsert, if_pos hk, List.map_cons, List.mem_cons] at hx ⊢
        rcases hx with h | h
        · exact Or.inl h
        · exact Or.inr (Or.inr h)
      · simp only [mapInsert, if_neg hk, List.map_cons, List.mem_cons] at hx ⊢
        rcases hx with h | h
        · exact Or.inr (Or.inl h)
        · rcases ih h with h2 | h2
          · exact Or.inl h2
          · exact Or.inr (Or.inr h2)

theorem nodup_keys_mapInsert {K A : Type} [DecidableEq K] (k : K) (a : A)
    (l : List (K × A)) (h : (l.map Prod.fst).Nodup) :
    ((mapInsert k a l).map Prod.fst).Nodup := by
  induction l with
  | nil => simp [mapInsert]
  | cons p rest ih =>
      obtain ⟨k', a'⟩ := p
      simp only [List.map_cons, List.nodup_cons] at h
      by_cases hk : k = k'
      · simp only [mapInsert, if_pos hk, List.map_cons, List.nodup_cons]
        exact ⟨hk ▸ h.1, h.2⟩
      · simp only [mapInsert, if_neg hk, List.map_cons, List.nodup_cons]
        refine ⟨fun hmem => ?_, ih h.2⟩
        rcases mem_keys_mapInsert k k' a rest hmem with h2 | h2
        · exact hk h2.symm
        · exact h.1 h2

theorem countKey_le_one_of_nodup {K A : Type} [DecidableEq K] (k : K)
    (l : List (K × A)) (h : (l.map Prod.fst).Nodup) : countKey k l ≤ 1 := by
  induction l with
  | nil => simp [countKey]
  | cons p rest ih =>
      obtain ⟨k', a'⟩ := p
      simp only [List.map_cons, List.nodup_cons] at h
      by_cases hk : k' = k
      · subst hk
        have hz : countKey k' rest = 0 := by
          have hmem : ∀ p ∈ rest, ¬(decide (p.1 = k') = true) := by
            intro p hp hdec
            simp only [decide_eq_true_eq] at hdec
            exact h.1 (by rw [← hdec]; exact List.mem_map_of_mem Prod.fst hp)
          simpa [countKey] using List.countP_eq_zero.mpr hmem
        simp only [countKey, List.countP_cons] at hz ⊢
        simp [hz]
      · have := ih h.2
        simpa [countKey, List.countP_cons, hk] using this

/-- Claim C3: with the operation countdown at zero, the quota check fails
with the "Max operations exhausted" error and leaves the countdown at zero;
with a positive countdown it succeeds and decrements by exactly one; hence
starting from a configured budget `N`, the first `N` operations reaching the
check pass it and the `(N+1)`-th fails with the quota condition; and no
pipeline operation ever increases the countdown. -/
theorem C3_quota_countdown :
    (verifyNetworkLimits (some 0) =
      (.error (.networkOther "Max operations exhausted"), some 0)) ∧
    (∀ n : Nat, verifyNetworkLimits (some (n + 1)) = (.ok (), some n)) ∧
    (∀ N k : Nat, k < N →
      (verifyNetworkLimits (countdownAfter k (some N))).1 = .ok ()) ∧
    (∀ N : Nat,
      (verifyNetworkLimits (countdownAfter N (some N))).1 =
        .error (.networkOther "Max operations exhausted")) ∧
    (∀ (env : Env) (s : RoutingState) (vault : Vault) (dst : Authority)
        (data : ImmutableData) (msgId : MessageId),
      countdownLe (Routing.putIData env s vault dst data msgId).countdown
        s.maxOpsCountdown = true) ∧
    (∀ (env : Env) (s : RoutingState) (vault : Vault) (dst : Authority)
        (name : XorName) (msgId : MessageId),
      countdownLe (Routing.getIData env s vault dst name msgId).countdown
        s.maxOpsCountdown = true) ∧
    (∀ (s : RoutingState) (vault : Vault) (dst : Authority)
        (msgId : MessageId) (r : OpResult),
      Routing.getAccountInfo s vault dst msgId = some r →
      countdownLe r.countdown s.maxOpsCountdown = true) ∧
    (∀ (env : Env) (s : RoutingState) (vault : Vault) (dst : Authority)
        (data : MutableData) (msgId : MessageId) (requester : PublicKey)
        (r : OpResult),
      Routing.putMData env s vault dst data msgId requester = some r →
      countdownLe r.countdown s.maxOpsCountdown = true) ∧
    (∀ (R : Type) (s : RoutingState) (vault : Vault) (name : XorName)
        (tag : Nat) (request : Request) (requester : Option PublicKey)
        (f : MutableData → Vault → Except ClientError R × Vault)
        (g : Except ClientError R → Response),
      countdownLe
        (Routing.withMData s vault name tag request requester f g).countdown
        s.maxOpsCountdown = true) ∧
    (∀ (env : Env) (s : RoutingState) (vault : Vault) (dst : Authority)
        (name : XorName) (tag : Nat) (newOwners : List PublicKey)
        (version : Nat) (msgId : MessageId),
      countdownLe
        (Routing.changeMDataOwner env s vault dst name tag newOwners version
          msgId).countdown s.maxOpsCountdown = true) ∧
    (∀ (s : RoutingState) (vault : Vault) (dst : Authority)
        (msgId : MessageId) (r : OpResult),
      Routing.listAuthKeysAndVersion s vault dst msgId = some r →
      countdownLe r.countdown s.maxOpsCountdown = true) ∧
    (∀ (s : RoutingState) (vault : Vault) (dst : Authority) (key : PublicKey)
        (version : Nat) (msgId : MessageId) (r : OpResult),
      Routing.insAuthKey s vault dst key version msgId = some r →
      countdownLe r.countdown s.maxOpsCountdown = true) ∧
    (∀ (s : RoutingState) (vault : Vault) (dst : Authority) (key : PublicKey)
        (version : Nat) (msgId : MessageId) (r : OpResult),
      Routing.delAuthKey s vault dst key version msgId = some r →
      countdownLe r.countdown s.maxOpsCountdown = true) := by
  refine ⟨rfl, fun n => rfl, ?_, ?_, ?_, ?_, ?_, ?_, ?_, ?_, ?_, ?_, ?_⟩
  · intro N k hk
    rw [countdownAfter_some k N (by omega)]
    obtain ⟨m, hm⟩ : ∃ m, N - k = m + 1 := ⟨N - k - 1, by omega⟩
    rw [hm]
    rfl
  · intro N
    rw [countdownAfter_some N N (le_refl N)]
    simp [verifyNetworkLimits]
  · intro env s vault dst data msgId
    unfold Routing.putIData
    rcases h : s.runHook (.putIData data msgId) with _ | rsp
    · simp only
      split
      · exact countdownLe_refl _
      · exact countdownLe_verify _
    · simp [countdownLe_refl]
  · intro env s vault dst name msgId
    unfold Routing.getIData
    rcases h : s.runHook (.getIData name msgId) with _ | rsp
    · simp only
      split
      · exact countdownLe_refl _
      · exact countdownLe_verify _
    · simp [countdownLe_refl]
  · intro s vault dst msgId r hr
    unfold Routing.getAccountInfo at hr
    split at hr
    · cases hr; exact countdownLe_refl _
    · rcases h2 : (verifyNetworkLimits s.maxOpsCountdown).1 with e | u <;>
        simp only [h2] at hr
      · cases hr; exact countdownLe_verify _
      · split at hr
        · cases hr; exact countdownLe_verify _
        · cases hr
  · intro env s vault dst data msgId requester r hr
    unfold Routing.putMData at hr
    rcases h : s.runHook (.putMData data msgId requester) with _ | rsp <;>
      simp only [h] at hr
    · split at hr
      · cases hr; exact countdownLe_refl _
      · rcases h2 : (verifyNetworkLimits s.maxOpsCountdown).1 with e | u <;>
          simp only [h2] at hr
        · cases hr; exact countdownLe_verify _
        · split at hr
          · split at hr
            · split at hr <;> (cases hr; exact countdownLe_verify _)
            · cases hr
          · cases hr; exact countdownLe_verify _
    · cases hr; exact countdownLe_refl _
  · intro R s vault name tag request requester f g
    rcases withMData_countdown s vault name tag request requester f g with h | h <;>
      rw [h]
    · exact countdownLe_refl _
    · exact countdownLe_verify _
  · intro env s vault dst name tag newOwners version msgId
    unfold Routing.changeMDataOwner
    match newOwners with
    | [newOwner] =>
        simp only
        rcases withMData_countdown s vault name tag
            (.changeMDataOwner name tag [newOwner] version msgId)
            (some s.clientKey) _ _ with h | h <;>
          unfold Routing.mutateMData <;> rw [h]
        · exact countdownLe_refl _
        · exact countdownLe_verify _
    | [] => exact countdownLe_refl _
    | a :: b :: rest => exact countdownLe_refl _
  · intro s vault dst msgId r hr
    unfold Routing.listAuthKeysAndVersion at hr
    rcases h : s.runHook (.listAuthKeysAndVersion msgId) with _ | rsp <;>
      simp only [h] at hr
    · split at hr
      · cases hr; exact countdownLe_refl _
      · rcases h2 : (verifyNetworkLimits s.maxOpsCountdown).1 with e | u <;>
          simp only [h2] at hr
        · cases hr; exact countdownLe_verify _
        · split at hr
          · cases hr; exact countdownLe_verify _
          · cases hr
    · cases hr; exact countdownLe_refl _
  · intro s vault dst key version msgId r hr
    unfold Routing.insAuthKey at hr
    rcases h : s.runHook (.insAuthKey key version msgId) with _ | rsp <;>
      simp only [h] at hr
    · split at hr
      · cases hr; exact countdownLe_refl _
      · rcases h2 : (verifyNetworkLimits s.maxOpsCountdown).1 with e | u <;>
          simp only [h2] at hr
        · cases hr; exact countdownLe_verify _
        · split at hr
          · cases hr; exact countdownLe_verify _
          · cases hr
    · cases hr; exact countdownLe_refl _
  · intro s vault dst key version msgId r hr
    unfold Routing.delAuthKey at hr
    rcases h : s.runHook (.delAuthKey key version msgId) with _ | rsp <;>
      simp only [h] at hr
    · split at hr
      · cases hr; exact countdownLe_refl _
      · rcases h2 : (verifyNetworkLimits s.maxOpsCountdown).1 with e | u <;>
          simp only [h2] at hr
        · cases hr; exact countdownLe_verify _
        · split at hr
          · cases hr; exact countdownLe_verify _
          · cases hr
    · cases hr; exact countdownLe_refl _

/-- Witness for C3 at concrete inputs. -/
theorem C3_quota_countdown_witness :
    ((verifyNetworkLimits (countdownAfter 1 (some 3))).1 = .ok ()) ∧
    (verifyNetworkLimits (some (2 + 1)) = (.ok (), some 2)) ∧
    countdownLe
      (OpResult.countdown
        ⟨some 4, emptyVault,
          [.response (.getAccountInfo (.error .noSuchAccount) 9)
            (.clientManager 7) (.client 2 3)]⟩)
      sampleState.maxOpsCountdown = true :=
  ⟨C3_quota_countdown.2.2.1 3 1 (by decide),
   C3_quota_countdown.2.1 2,
   C3_quota_countdown.2.2.2.2.2.2.1 sampleState emptyVault (.clientManager 7) 9
     ⟨some 4, emptyVault,
       [.response (.getAccountInfo (.error .noSuchAccount) 9)
         (.clientManager 7) (.client 2 3)]⟩ (by decide)⟩

/-- Claim C9: the `FfiError`-to-`i32` conversion is injective on the 22 error
variants (payloads ignored), and every code is at most
`FFI_ERROR_START_RANGE`, hence negative. -/
theorem C9_ffi_error_codes :
    (∀ e1 e2 : FfiError, e1.toI32 = e2.toI32 → e1.variantIdx = e2.variantIdx) ∧
    (∀ e : FfiError, e.toI32 ≤ FFI_ERROR_START_RANGE ∧ e.toI32 < 0) := by
  constructor
  · intro e1 e2
    cases e1 <;> cases e2 <;> intro h <;>
      first
        | rfl
        | (simp only [FfiError.toI32, FFI_ERROR_START_RANGE,
            CORE_ERROR_START_RANGE] at h
           omega)
  · intro e
    cases e <;>
      (simp only [FfiError.toI32, FFI_ERROR_START_RANGE, CORE_ERROR_START_RANGE]
       omega)

/-- Witness for C9 at concrete inputs. -/
theorem C9_ffi_error_codes_witness :
    FfiError.variantIdx .pathNotFound = FfiError.variantIdx .pathNotFound ∧
    (FfiError.toI32 .invalidIndex ≤ FFI_ERROR_START_RANGE ∧
      FfiError.toI32 .invalidIndex < 0) :=
  ⟨C9_ffi_error_codes.1 .pathNotFound .pathNotFound rfl,
   C9_ffi_error_codes.2 .invalidIndex⟩

/-- Claim C10: `mdata_entry_actions_insert` always records an `Ins` action at
entry version 0 regardless of the supplied value; adding an action for a key
replaces any earlier action for that key (the last-added action is the one
found); and on a collection with duplicate-free keys, adding an action keeps
the keys duplicate-free, so at most one action is held per key. -/
theorem C10_entry_actions :
    (∀ (actions : EntryActions) (key : EntryKey) (value : List Nat),
      mapFind key (mdataEntryActionsInsert actions key value) =
        some (.ins { content := value, entry_version := 0 })) ∧
    (∀ (actions : EntryActions) (key : EntryKey) (action : EntryAction),
      mapFind key (addAction actions key action) = some action) ∧
    (∀ (actions : EntryActions) (key : EntryKey) (action : EntryAction),
      (actions.map Prod.fst).Nodup →
      (((addAction actions key action).map Prod.fst).Nodup ∧
        ∀ k : EntryKey, countKey k (addAction actions key action) ≤ 1)) := by
  refine ⟨?_, ?_, ?_⟩
  · intro actions key value
    exact mapFind_mapInsert key _ actions
  · intro actions key action
    exact mapFind_mapInsert key action actions
  · intro actions key action h
    have hnodup := nodup_keys_mapInsert key action actions h
    exact ⟨hnodup, fun k => countKey_le_one_of_nodup k _ hnodup⟩

/-- Claim C1 counterexample: with a hook installed that returns a response
for every request — in particular for the `get_account_info` request shape —
`get_account_info` still runs the quota check (the countdown drops from one
to zero) and delivers the domain response, not the hook's response:
`get_account_info` never consults the hook. -/
theorem C1_counterexample :
    c1State.runHook (.getAccountInfo 5) =
      some (.getAccountInfo (.ok ⟨7, 8⟩) 5) ∧
    Routing.getAccountInfo c1State emptyVault (.clientManager 2) 5 =
      some ⟨some 0, emptyVault,
        [.response (.getAccountInfo (.error .noSuchAccount) 5)
          (.clientManager 2) (.client 2 3)]⟩ ∧
    (some 0 : Option Nat) ≠ c1State.maxOpsCountdown ∧
    Response.getAccountInfo (.error .noSuchAccount) 5 ≠
      .getAccountInfo (.ok ⟨7, 8⟩) 5 :=
  ⟨rfl, by decide, by decide, by decide⟩

/-- Claim C1 (amended): for every hook-consulting operation — immutable
put/get, mutable put, the `with_mdata` family including a singleton change
of owner, and the auth-key operations — an installed hook that returns
`some response` for the operation's request short-circuits the pipeline:
that response is the only event delivered, and the countdown and the Store
are untouched.  `get_account_info` is the one exception: its result does not
depend on the hook at all. -/
theorem C1_hook_precedence :
    (∀ (env : Env) (s : RoutingState) (vault : Vault) (dst : Authority)
        (data : ImmutableData) (msgId : MessageId) (rsp : Response),
      s.runHook (.putIData data msgId) = some rsp →
      Routing.putIData env s vault dst data msgId =
        ⟨s.maxOpsCountdown, vault,
          [.response rsp (.naeManager data.name) s.clientAuth]⟩) ∧
    (∀ (env : Env) (s : RoutingState) (vault : Vault) (dst : Authority)
        (name : XorName) (msgId : MessageId) (rsp : Response),
      s.runHook (.getIData name msgId) = some rsp →
      Routing.getIData env s vault dst name msgId =
        ⟨s.maxOpsCountdown, vault,
          [.response rsp (.naeManager name) s.clientAuth]⟩) ∧
    (∀ (env : Env) (s : RoutingState) (vault : Vault) (dst : Authority)
        (data : MutableData) (msgId : MessageId) (requester : PublicKey)
        (rsp : Response),
      s.runHook (.putMData data msgId requester) = some rsp →
      Routing.putMData env s vault dst data msgId requester =
        some ⟨s.maxOpsCountdown, vault,
          [.response rsp (.naeManager data.name) s.clientAuth]⟩) ∧
    (∀ (R : Type) (s : RoutingState) (vault : Vault) (name : XorName)
        (tag : Nat) (request : Request) (requester : Option PublicKey)
        (f : MutableData → Vault → Except ClientError R × Vault)
        (g : Except ClientError R → Response) (rsp : Response),
      s.runHook request = some rsp →
      Routing.withMData s vault name tag request requester f g =
        ⟨s.maxOpsCountdown, vault,
          [.response rsp (.naeManager name) s.clientAuth]⟩) ∧
    (∀ (env : Env) (s : RoutingState) (vault : Vault) (dst : Authority)
        (name : XorName) (tag : Nat) (newOwner : PublicKey) (version : Nat)
        (msgId : MessageId) (rsp : Response),
      s.runHook (.changeMDataOwner name tag [newOwner] version msgId) =
        some rsp →
      Routing.changeMDataOwner env s vault dst name tag [newOwner] version
        msgId =
        ⟨s.maxOpsCountdown, vault,
          [.response rsp (.naeManager name) s.clientAuth]⟩) ∧
    (∀ (s : RoutingState) (vault : Vault) (dst : Authority)
        (msgId : MessageId) (rsp : Response),
      s.runHook (.listAuthKeysAndVersion msgId) = some rsp →
      Routing.listAuthKeysAndVersion s vault dst msgId =
        some ⟨s.maxOpsCountdown, vault, [.response rsp dst s.clientAuth]⟩) ∧
    (∀ (s : RoutingState) (vault : Vault) (dst : Authority) (key : PublicKey)
        (version : Nat) (msgId : MessageId) (rsp : Response),
      s.runHook (.insAuthKey key version msgId) = some rsp →
      Routing.insAuthKey s vault dst key version msgId =
        some ⟨s.maxOpsCountdown, vault, [.response rsp dst s.clientAuth]⟩) ∧
    (∀ (s : RoutingState) (vault : Vault) (dst : Authority) (key : PublicKey)
        (version : Nat) (msgId : MessageId) (rsp : Response),
      s.runHook (.delAuthKey key version msgId) = some rsp →
      Routing.delAuthKey s vault dst key version msgId =
        some ⟨s.maxOpsCountdown, vault, [.response rsp dst s.clientAuth]⟩) ∧
    (∀ (s : RoutingState) (vault : Vault) (dst : Authority)
        (msgId : MessageId) (hook : Option (Request → Option Response)),
      Routing.getAccountInfo { s with requestHook := hook } vault dst msgId =
        Routing.getAccountInfo s vault dst msgId) := by
  refine ⟨?_, ?_, ?_, ?_, ?_, ?_, ?_, ?_, ?_⟩
  · intro env s vault dst data msgId rsp h
    unfold Routing.putIData
    simp only [h]
  · intro env s vault dst name msgId rsp h
    unfold Routing.getIData
    simp only [h]
  · intro env s vault dst data msgId requester rsp h
    unfold Routing.putMData
    simp only [h]
  · intro R s vault name tag request requester f g rsp h
    unfold Routing.withMData
    simp only [h]
  · intro env s vault dst name tag newOwner version msgId rsp h
    unfold Routing.changeMDataOwner Routing.mutateMData Routing.withMData
    simp only [h]
  · intro s vault dst msgId rsp h
    unfold Routing.listAuthKeysAndVersion
    simp only [h]
  · intro s vault dst key version msgId rsp h
    unfold Routing.insAuthKey
    simp only [h]
  · intro s vault dst key version msgId rsp h
    unfold Routing.delAuthKey
    simp only [h]
  · intro s vault dst msgId hook
    rfl

/-- Witness for the amended C1 at concrete inputs. -/
theorem C1_hook_precedence_witness :
    Routing.putIData sampleEnv c1wState emptyVault (.clientManager 2)
        ⟨4, [1]⟩ 9 =
      ⟨some 5, emptyVault,
        [.response (.putIData (.ok ()) 5) (.naeManager 4) (.client 2 3)]⟩ ∧
    Routing.withMData c1wState emptyVault 4 1 (.getMDataVersion 4 1 7) none
        (fun d v => (.ok d.version, v))
        (fun res => .getMDataVersion res 7) =
      ⟨some 5, emptyVault,
        [.response (.putIData (.ok ()) 5) (.naeManager 4) (.client 2 3)]⟩ :=
  ⟨C1_hook_precedence.1 sampleEnv c1wState emptyVault (.clientManager 2)
      ⟨4, [1]⟩ 9 (.putIData (.ok ()) 5) rfl,
   C1_hook_precedence.2.2.2.1 Nat c1wState emptyVault 4 1
      (.getMDataVersion 4 1 7) none (fun d v => (.ok d.version, v))
      (fun res => .getMDataVersion res 7) (.putIData (.ok ()) 5) rfl⟩

/-- Claim C2 counterexample: with the forced-timeout flag set and no hook,
`change_mdata_owner` called with an empty new-owner set still delivers an
"invalid owners" response — the non-singleton shape check fires before the
fault check, so a response event is sent although the claim says none ever
is. -/
theorem C2_counterexample :
    c2State.timeoutSimulation = true ∧
    c2State.requestHook = none ∧
    Routing.changeMDataOwner sampleEnv c2State emptyVault (.clientManager 2)
        4 1 [] 1 9 =
      ⟨none, emptyVault,
        [.response (.changeMDataOwner (.error .invalidOwners) 9)
          (.clientManager 2) (.client 2 3)]⟩ ∧
    [Event.response (.changeMDataOwner (.error .invalidOwners) 9)
      (.clientManager 2) (.client 2 3)] ≠ ([] : List Event) :=
  ⟨rfl, rfl, by decide, by decide⟩

/-- Claim C2 (amended): every operation invoked while the forced-timeout
flag is set and not short-circuited by a hook is silently dropped — no event
is delivered and the countdown and Store are untouched — with one exception:
`change_mdata_owner` with a non-singleton new-owner set responds "invalid
owners" before the fault check is reached (for a singleton set it is dropped
like every other operation). -/
theorem C2_timeout_drop :
    (∀ (s : RoutingState) (vault : Vault) (dst : Authority)
        (msgId : MessageId),
      s.timeoutSimulation = true →
      Routing.getAccountInfo s vault dst msgId =
        some ⟨s.maxOpsCountdown, vault, []⟩) ∧
    (∀ (env : Env) (s : RoutingState) (vault : Vault) (dst : Authority)
        (data : ImmutableData) (msgId : MessageId),
      s.timeoutSimulation = true →
      s.runHook (.putIData data msgId) = none →
      Routing.putIData env s vault dst data msgId =
        ⟨s.maxOpsCountdown, vault, []⟩) ∧
    (∀ (env : Env) (s : RoutingState) (vault : Vault) (dst : Authority)
        (name : XorName) (msgId : MessageId),
      s.timeoutSimulation = true →
      s.runHook (.getIData name msgId) = none →
      Routing.getIData env s vault dst name msgId =
        ⟨s.maxOpsCountdown, vault, []⟩) ∧
    (∀ (env : Env) (s : RoutingState) (vault : Vault) (dst : Authority)
        (data : MutableData) (msgId : MessageId) (requester : PublicKey),
      s.timeoutSimulation = true →
      s.runHook (.putMData data msgId requester) = none →
      Routing.putMData env s vault dst data msgId requester =
        some ⟨s.maxOpsCountdown, vault, []⟩) ∧
    (∀ (R : Type) (s : RoutingState) (vault : Vault) (name : XorName)
        (tag : Nat) (request : Request) (requester : Option PublicKey)
        (f : MutableData → Vault → Except ClientError R × Vault)
        (g : Except ClientError R → Response),
      s.timeoutSimulation = true →
      s.runHook request = none →
      Routing.withMData s vault name tag request requester f g =
        ⟨s.maxOpsCountdown, vault, []⟩) ∧
    (∀ (env : Env) (s : RoutingState) (vault : Vault) (dst : Authority)
        (name : XorName) (tag : Nat) (newOwner : PublicKey) (version : Nat)
        (msgId : MessageId),
      s.timeoutSimulation = true →
      s.runHook (.changeMDataOwner name tag [newOwner] version msgId) =
        none →
      Routing.changeMDataOwner env s vault dst name tag [newOwner] version
        msgId = ⟨s.maxOpsCountdown, vault, []⟩) ∧
    (∀ (s : RoutingState) (vault : Vault) (dst : Authority)
        (msgId : MessageId),
      s.timeoutSimulation = true →
      s.runHook (.listAuthKeysAndVersion msgId) = none →
      Routing.listAuthKeysAndVersion s vault dst msgId =
        some ⟨s.maxOpsCountdown, vault, []⟩) ∧
    (∀ (s : RoutingState) (vault : Vault) (dst : Authority) (key : PublicKey)
        (version : Nat) (msgId : MessageId),
      s.timeoutSimulation = true →
      s.runHook (.insAuthKey key version msgId) = none →
      Routing.insAuthKey s vault dst key version msgId =
        some ⟨s.maxOpsCountdown, vault, []⟩) ∧
    (∀ (s : RoutingState) (vault : Vault) (dst : Authority) (key : PublicKey)
        (version : Nat) (msgId : MessageId),
      s.timeoutSimulation = true →
      s.runHook (.delAuthKey key version msgId) = none →
      Routing.delAuthKey s vault dst key version msgId =
        some ⟨s.maxOpsCountdown, vault, []⟩) := by
  refine ⟨?_, ?_, ?_, ?_, ?_, ?_, ?_, ?_, ?_⟩
  · intro s vault dst msgId ht
    unfold Routing.getAccountInfo
    simp [RoutingState.simulateNetworkErrors, ht]
  · intro env s vault dst data msgId ht hh
    unfold Routing.putIData
    simp [hh, RoutingState.simulateNetworkErrors, ht]
  · intro env s vault dst name msgId ht hh
    unfold Routing.getIData
    simp [hh, RoutingState.simulateNetworkErrors, ht]
  · intro env s vault dst data msgId requester ht hh
    unfold Routing.putMData
    simp [hh, RoutingState.simulateNetworkErrors, ht]
  · intro R s vault name tag request requester f g ht hh
    unfold Routing.withMData
    simp [hh, RoutingState.simulateNetworkErrors, ht]
  · intro env s vault dst name tag newOwner version msgId ht hh
    unfold Routing.changeMDataOwner Routing.mutateMData Routing.withMData
    simp [hh, RoutingState.simulateNetworkErrors, ht]
  · intro s vault dst msgId ht hh
    unfold Routing.listAuthKeysAndVersion
    simp [hh, RoutingState.simulateNetworkErrors, ht]
  · intro s vault dst key version msgId ht hh
    unfold Routing.insAuthKey
    simp [hh, RoutingState.simulateNetworkErrors, ht]
  · intro s vault dst key version msgId ht hh
    unfold Routing.delAuthKey
    simp [hh, RoutingState.simulateNetworkErrors, ht]

/-- Witness for the amended C2 at concrete inputs. -/
theorem C2_timeout_drop_witness :
    Routing.getAccountInfo c2State emptyVault (.clientManager 2) 9 =
      some ⟨none, emptyVault, []⟩ ∧
    Routing.putIData sampleEnv c2State emptyVault (.clientManager 2)
        ⟨4, [1]⟩ 9 =
      ⟨none, emptyVault, []⟩ ∧
    Routing.changeMDataOwner sampleEnv c2State emptyVault (.clientManager 2)
        4 1 [7] 1 9 =
      ⟨none, emptyVault, []⟩ :=
  ⟨C2_timeout_drop.1 c2State emptyVault (.clientManager 2) 9 rfl,
   C2_timeout_drop.2.1 sampleEnv c2State emptyVault (.clientManager 2)
     ⟨4, [1]⟩ 9 rfl rfl,
   C2_timeout_drop.2.2.2.2.2.1 sampleEnv c2State emptyVault (.clientManager 2)
     4 1 7 1 9 rfl rfl⟩

theorem getData_insertData (v : Vault) (id : DataId) (d : Data) :
    (v.insertData id d).getData id = some d :=
  mapFind_mapInsert id d v.data

theorem commitMutation_data (v : Vault) (dst : Authority) :
    (v.commitMutation dst).data = v.data := rfl

theorem putIData_dedup (env : Env) (s : RoutingState) (vault : Vault)
    (dst : Authority) (data : ImmutableData) (msgId : MessageId)
    (d' : ImmutableData)
    (hhook : s.runHook (.putIData data msgId) = none)
    (htimeout : s.timeoutSimulation = false)
    (hlimits : (verifyNetworkLimits s.maxOpsCountdown).1 = .ok ())
    (hauth : env.authoriseMutation vault dst s.clientKey = .ok ())
    (hd : vault.getData (.immutable data.name) = some (.immutable d')) :
    Routing.putIData env s vault dst data msgId =
      ⟨(verifyNetworkLimits s.maxOpsCountdown).2, vault.commitMutation dst,
        [.response (.putIData (.ok ()) msgId) (.naeManager data.name)
          s.clientAuth]⟩ := by
  unfold Routing.putIData
  rw [hhook]
  simp only [RoutingState.simulateNetworkErrors, htimeout, Bool.false_eq_true,
    if_false, hlimits, hauth, hd]

theorem putIData_wrongKind (env : Env) (s : RoutingState) (vault : Vault)
    (dst : Authority) (data : ImmutableData) (msgId : MessageId)
    (md : MutableData)
    (hhook : s.runHook (.putIData data msgId) = none)
    (htimeout : s.timeoutSimulation = false)
    (hlimits : (verifyNetworkLimits s.maxOpsCountdown).1 = .ok ())
    (hauth : env.authoriseMutation vault dst s.clientKey = .ok ())
    (hd : vault.getData (.immutable data.name) = some (.mutable md)) :
    Routing.putIData env s vault dst data msgId =
      ⟨(verifyNetworkLimits s.maxOpsCountdown).2, vault,
        [.response (.putIData (.error .dataExists) msgId)
          (.naeManager data.name) s.clientAuth]⟩ := by
  unfold Routing.putIData
  rw [hhook]
  simp only [RoutingState.simulateNetworkErrors, htimeout, Bool.false_eq_true,
    if_false, hlimits, hauth, hd]

theorem putIData_fresh (env : Env) (s : RoutingState) (vault : Vault)
    (dst : Authority) (data : ImmutableData) (msgId : MessageId)
    (hhook : s.runHook (.putIData data msgId) = none)
    (htimeout : s.timeoutSimulation = false)
    (hlimits : (verifyNetworkLimits s.maxOpsCountdown).1 = .ok ())
    (hauth : env.authoriseMutation vault dst s.clientKey = .ok ())
    (hd : vault.getData (.immutable data.name) = none) :
    Routing.putIData env s vault dst data msgId =
      ⟨(verifyNetworkLimits s.maxOpsCountdown).2,
        (vault.insertData (.immutable data.name)
          (.immutable data)).commitMutation dst,
        [.response (.putIData (.ok ()) msgId) (.naeManager data.name)
          s.clientAuth]⟩ := by
  unfold Routing.putIData
  rw [hhook]
  simp only [RoutingState.simulateNetworkErrors, htimeout, Bool.false_eq_true,
    if_false, hlimits, hauth, hd]

/-- Claim C4 counterexample: with the same immutable record already stored
and an account at the destination, a dedup `put_idata` succeeds but does not
leave the Store unchanged — `commit_mutation` still runs on the dedup path,
advancing the destination account's mutation counters. -/
theorem C4_counterexample :
    c4Vault.getData (.immutable 4) = some (.immutable ⟨4, [1]⟩) ∧
    (Routing.putIData sampleEnv sampleState c4Vault (.clientManager 2)
      ⟨4, [1]⟩ 9).events =
      [.response (.putIData (.ok ()) 9) (.naeManager 4) (.client 2 3)] ∧
    (Routing.putIData sampleEnv sampleState c4Vault (.clientManager 2)
      ⟨4, [1]⟩ 9).vault.getAccount 2 = some ⟨⟨1, 999⟩, [], 0⟩ ∧
    c4Vault.getAccount 2 = some ⟨⟨0, 1000⟩, [], 0⟩ ∧
    (Routing.putIData sampleEnv sampleState c4Vault (.clientManager 2)
      ⟨4, [1]⟩ 9).vault ≠ c4Vault :=
  ⟨by decide, by decide, by decide, by decide, by decide⟩

/-- Claim C4 (amended): a `put_idata` past the fault, quota and
mutation-authorization checks succeeds when a record of the immutable kind
already exists under the data's name, leaving the Store's data records
unchanged while still committing the mutation against the destination
account; fails with "data exists" when a record of another kind sits under
that name; inserts the data and commits the mutation when no record exists;
and putting the same immutable data twice succeeds both times, leaving
exactly one data record under that name. -/
theorem C4_put_idata_dedup :
    ∀ (env : Env) (s : RoutingState) (vault : Vault) (dst : Authority)
      (data : ImmutableData) (msgId : MessageId),
      s.runHook (.putIData data msgId) = none →
      s.timeoutSimulation = false →
      (verifyNetworkLimits s.maxOpsCountdown).1 = .ok () →
      env.authoriseMutation vault dst s.clientKey = .ok () →
      ((∀ d' : ImmutableData,
          vault.getData (.immutable data.name) = some (.immutable d') →
          Routing.putIData env s vault dst data msgId =
            ⟨(verifyNetworkLimits s.maxOpsCountdown).2,
              vault.commitMutation dst,
              [.response (.putIData (.ok ()) msgId) (.naeManager data.name)
                s.clientAuth]⟩ ∧
          (Routing.putIData env s vault dst data msgId).vault.data =
            vault.data) ∧
        (∀ md : MutableData,
          vault.getData (.immutable data.name) = some (.mutable md) →
          Routing.putIData env s vault dst data msgId =
            ⟨(verifyNetworkLimits s.maxOpsCountdown).2, vault,
              [.response (.putIData (.error .dataExists) msgId)
                (.naeManager data.name) s.clientAuth]⟩) ∧
        (vault.getData (.immutable data.name) = none →
          Routing.putIData env s vault dst data msgId =
            ⟨(verifyNetworkLimits s.maxOpsCountdown).2,
              (vault.insertData (.immutable data.name)
                (.immutable data)).commitMutation dst,
              [.response (.putIData (.ok ()) msgId) (.naeManager data.name)
                s.clientAuth]⟩) ∧
        (∀ s2 : RoutingState,
          vault.getData (.immutable data.name) = none →
          s2.runHook (.putIData data msgId) = none →
          s2.timeoutSimulation = false →
          (verifyNetworkLimits s2.maxOpsCountdown).1 = .ok () →
          env.authoriseMutation
            (Routing.putIData env s vault dst data msgId).vault dst
            s2.clientKey = .ok () →
          (Routing.putIData env s vault dst data msgId).events =
            [.response (.putIData (.ok ()) msgId) (.naeManager data.name)
              s.clientAuth] ∧
          (Routing.putIData env s2
            (Routing.putIData env s vault dst data msgId).vault dst data
            msgId).events =
            [.response (.putIData (.ok ()) msgId) (.naeManager data.name)
              s2.clientAuth] ∧
          countKey (DataId.immutable data.name)
            (Routing.putIData env s2
              (Routing.putIData env s vault dst data msgId).vault dst data
              msgId).vault.data = 1)) := by
  intro env s vault dst data msgId hhook htimeout hlimits hauth
  refine ⟨?_, ?_, ?_, ?_⟩
  · intro d' hd
    have h1 := putIData_dedup env s vault dst data msgId d' hhook htimeout
      hlimits hauth hd
    exact ⟨h1, by rw [h1]; rfl⟩
  · intro md hd
    exact putIData_wrongKind env s vault dst data msgId md hhook htimeout
      hlimits hauth hd
  · intro hd
    exact putIData_fresh env s vault dst data msgId hhook htimeout hlimits
      hauth hd
  · intro s2 hd hhook2 htimeout2 hlimits2 hauth2
    have h1 := putIData_fresh env s vault dst data msgId hhook htimeout
      hlimits hauth hd
    have hv1data :
        (Routing.putIData env s vault dst data msgId).vault.data =
          mapInsert (DataId.immutable data.name) (Data.immutable data)
            vault.data := by
      rw [h1]
      rfl
    have hget1 :
        (Routing.putIData env s vault dst data msgId).vault.getData
          (.immutable data.name) = some (.immutable data) := by
      show mapFind (DataId.immutable data.name)
        (Routing.putIData env s vault dst data msgId).vault.data =
        some (Data.immutable data)
      rw [hv1data]
      exact mapFind_mapInsert _ _ _
    have h2 := putIData_dedup env s2
      (Routing.putIData env s vault dst data msgId).vault dst data msgId
      data hhook2 htimeout2 hlimits2 hauth2 hget1
    refine ⟨by rw [h1], by rw [h2], ?_⟩
    rw [h2]
    show countKey (DataId.immutable data.name)
      (Routing.putIData env s vault dst data msgId).vault.data = 1
    rw [hv1data]
    exact countKey_mapInsert _ _ _ hd

/-- Witness for C4 at concrete inputs: two puts of the same immutable data
into the empty Store. -/
theorem C4_put_idata_dedup_witness :
    (Routing.putIData sampleEnv sampleState emptyVault (.clientManager 2)
      ⟨4, [1]⟩ 9).events =
      [.response (.putIData (.ok ()) 9) (.naeManager 4) (.client 2 3)] ∧
    (Routing.putIData sampleEnv sampleState
      (Routing.putIData sampleEnv sampleState emptyVault (.clientManager 2)
        ⟨4, [1]⟩ 9).vault (.clientManager 2) ⟨4, [1]⟩ 9).events =
      [.response (.putIData (.ok ()) 9) (.naeManager 4) (.client 2 3)] ∧
    countKey (DataId.immutable 4)
      (Routing.putIData sampleEnv sampleState
        (Routing.putIData sampleEnv sampleState emptyVault (.clientManager 2)
          ⟨4, [1]⟩ 9).vault (.clientManager 2) ⟨4, [1]⟩ 9).vault.data = 1 :=
  (C4_put_idata_dedup sampleEnv sampleState emptyVault (.clientManager 2)
    ⟨4, [1]⟩ 9 rfl rfl rfl rfl).2.2.2 sampleState rfl rfl rfl rfl rfl

theorem putMData_session_exists (env : Env) (s : RoutingState) (vault : Vault)
    (dstName : XorName) (data : MutableData) (msgId : MessageId)
    (requester : PublicKey)
    (htag : data.tag = TYPE_TAG_SESSION_PACKET)
    (hhook : s.runHook (.putMData data msgId requester) = none)
    (htimeout : s.timeoutSimulation = false)
    (hlimits : (verifyNetworkLimits s.maxOpsCountdown).1 = .ok ())
    (hcontains : vault.containsData (.mutable data.name data.tag) = true) :
    Routing.putMData env s vault (.clientManager dstName) data msgId requester =
      some ⟨(verifyNetworkLimits s.maxOpsCountdown).2, vault,
        [.response (.putMData (.error .accountExists) msgId)
          (.naeManager data.name) s.clientAuth]⟩ := by
  unfold Routing.putMData
  rw [hhook]
  simp only [RoutingState.simulateNetworkErrors, htimeout, Bool.false_eq_true,
    if_false, hlimits, if_pos htag, hcontains, if_true]

theorem putMData_session_fresh (env : Env) (s : RoutingState) (vault : Vault)
    (dstName : XorName) (data : MutableData) (msgId : MessageId)
    (requester : PublicKey)
    (htag : data.tag = TYPE_TAG_SESSION_PACKET)
    (hhook : s.runHook (.putMData data msgId requester) = none)
    (htimeout : s.timeoutSimulation = false)
    (hlimits : (verifyNetworkLimits s.maxOpsCountdown).1 = .ok ())
    (hcontains : vault.containsData (.mutable data.name data.tag) = false) :
    Routing.putMData env s vault (.clientManager dstName) data msgId requester =
      some ⟨(verifyNetworkLimits s.maxOpsCountdown).2,
        (vault.insertAccount dstName).insertData
          (.mutable data.name data.tag) (.mutable data),
        [.response (.putMData (.ok ()) msgId) (.naeManager data.name)
          s.clientAuth]⟩ := by
  unfold Routing.putMData
  rw [hhook]
  simp only [RoutingState.simulateNetworkErrors, htimeout, Bool.false_eq_true,
    if_false, hlimits, if_pos htag, hcontains, Bool.false_eq_true, if_false]

/-- Claim C5 counterexample: with an account already present at the
destination identity (but no session-packet data record), a session-packet
`put_mdata` succeeds instead of failing with "account exists" — account
existence is never checked, only `contains_data`. -/
theorem C5_counterexample :
    (c5Vault.getAccount 10).isSome = true ∧
    Routing.putMData sampleEnv sampleState c5Vault (.clientManager 10) c5Data
        9 1 =
      some ⟨some 4,
        (c5Vault.insertAccount 10).insertData
          (.mutable 4 TYPE_TAG_SESSION_PACKET) (.mutable c5Data),
        [.response (.putMData (.ok ()) 9) (.naeManager 4) (.client 2 3)]⟩ :=
  ⟨rfl, by decide⟩

/-- Claim C5 (amended): a session-packet `put_mdata` past the fault and quota
checks fails with "account exists" exactly when a data record already exists
under the `(name, session-packet-tag)` identifier — account existence at the
destination is not itself checked; otherwise the account for the destination
name and the mutable record are inserted in one step, and a second creation
attempt with the same session-packet identifier always fails. -/
theorem C5_session_packet_put :
    ∀ (env : Env) (s : RoutingState) (vault : Vault) (dstName : XorName)
      (data : MutableData) (msgId : MessageId) (requester : PublicKey),
      data.tag = TYPE_TAG_SESSION_PACKET →
      s.runHook (.putMData data msgId requester) = none →
      s.timeoutSimulation = false →
      (verifyNetworkLimits s.maxOpsCountdown).1 = .ok () →
      ((vault.containsData (.mutable data.name data.tag) = true →
          Routing.putMData env s vault (.clientManager dstName) data msgId
            requester =
            some ⟨(verifyNetworkLimits s.maxOpsCountdown).2, vault,
              [.response (.putMData (.error .accountExists) msgId)
                (.naeManager data.name) s.clientAuth]⟩) ∧
        (vault.containsData (.mutable data.name data.tag) = false →
          Routing.putMData env s vault (.clientManager dstName) data msgId
            requester =
            some ⟨(verifyNetworkLimits s.maxOpsCountdown).2,
              (vault.insertAccount dstName).insertData
                (.mutable data.name data.tag) (.mutable data),
              [.response (.putMData (.ok ()) msgId) (.naeManager data.name)
                s.clientAuth]⟩) ∧
        (∀ (s2 : RoutingState) (dstName2 : XorName) (requester2 : PublicKey),
          vault.containsData (.mutable data.name data.tag) = false →
          s2.runHook (.putMData data msgId requester2) = none →
          s2.timeoutSimulation = false →
          (verifyNetworkLimits s2.maxOpsCountdown).1 = .ok () →
          Routing.putMData env s2
            ((vault.insertAccount dstName).insertData
              (.mutable data.name data.tag) (.mutable data))
            (.clientManager dstName2) data msgId requester2 =
            some ⟨(verifyNetworkLimits s2.maxOpsCountdown).2,
              (vault.insertAccount dstName).insertData
                (.mutable data.name data.tag) (.mutable data),
              [.response (.putMData (.error .accountExists) msgId)
                (.naeManager data.name) s2.clientAuth]⟩)) := by
  intro env s vault dstName data msgId requester htag hhook htimeout hlimits
  refine ⟨?_, ?_, ?_⟩
  · intro hcontains
    exact putMData_session_exists env s vault dstName data msgId requester
      htag hhook htimeout hlimits hcontains
  · intro hcontains
    exact putMData_session_fresh env s vault dstName data msgId requester
      htag hhook htimeout hlimits hcontains
  · intro s2 dstName2 requester2 hcontains hhook2 htimeout2 hlimits2
    have hcontains2 :
        ((vault.insertAccount dstName).insertData
          (.mutable data.name data.tag)
          (.mutable data)).containsData (.mutable data.name data.tag) = true := by
      simp [Vault.containsData, getData_insertData]
    exact putMData_session_exists env s2
      ((vault.insertAccount dstName).insertData
        (.mutable data.name data.tag) (.mutable data))
      dstName2 data msgId requester2 htag hhook2 htimeout2 hlimits2 hcontains2

/-- Witness for C5 at concrete inputs: account creation into the empty Store
followed by a second creation attempt with the same identifier. -/
theorem C5_session_packet_put_witness :
    Routing.putMData sampleEnv sampleState emptyVault (.clientManager 10)
        c5Data 9 1 =
      some ⟨some 4,
        (emptyVault.insertAccount 10).insertData
          (.mutable c5Data.name c5Data.tag) (.mutable c5Data),
        [.response (.putMData (.ok ()) 9) (.naeManager c5Data.name)
          (.client 2 3)]⟩ ∧
    Routing.putMData sampleEnv sampleState
        ((emptyVault.insertAccount 10).insertData
          (.mutable c5Data.name c5Data.tag) (.mutable c5Data))
        (.clientManager 10) c5Data 9 1 =
      some ⟨some 4,
        (emptyVault.insertAccount 10).insertData
          (.mutable c5Data.name c5Data.tag) (.mutable c5Data),
        [.response (.putMData (.error .accountExists) 9)
          (.naeManager c5Data.name) (.client 2 3)]⟩ :=
  ⟨(C5_session_packet_put sampleEnv sampleState emptyVault 10 c5Data 9 1
      rfl rfl rfl rfl).2.1 rfl,
   (C5_session_packet_put sampleEnv sampleState emptyVault 10 c5Data 9 1
      rfl rfl rfl rfl).2.2 sampleState 10 1 rfl rfl rfl rfl⟩

/-- Claim C6: every operation of the `with_mdata` family that reaches the
Store lookup and finds no mutable record under `(name, tag)` fails with
"no such account" when the tag is the reserved session-packet tag, and with
"no such data" for every other tag. -/
theorem C6_mdata_miss_error :
    ∀ (R : Type) (s : RoutingState) (vault : Vault) (name : XorName)
      (tag : Nat) (request : Request) (requester : Option PublicKey)
      (f : MutableData → Vault → Except ClientError R × Vault)
      (g : Except ClientError R → Response),
      s.runHook request = none →
      s.timeoutSimulation = false →
      (verifyNetworkLimits s.maxOpsCountdown).1 = .ok () →
      s.verifyRequester requester = .ok () →
      (∀ d : MutableData,
        vault.getData (.mutable name tag) ≠ some (.mutable d)) →
      Routing.withMData s vault name tag request requester f g =
        ⟨(verifyNetworkLimits s.maxOpsCountdown).2, vault,
          [.response
            (g (.error
              (if tag = TYPE_TAG_SESSION_PACKET then .noSuchAccount
                else .noSuchData)))
            (.naeManager name) s.clientAuth]⟩ := by
  intro R s vault name tag request requester f g hhook htimeout hlimits hreq hmiss
  unfold Routing.withMData
  rw [hhook]
  simp only [RoutingState.simulateNetworkErrors, htimeout, Bool.false_eq_true,
    if_false, hlimits, hreq]
  rcases hd : vault.getData (.mutable name tag) with _ | d
  · by_cases ht : tag = TYPE_TAG_SESSION_PACKET <;> simp [ht]
  · cases d with
    | immutable i =>
        by_cases ht : tag = TYPE_TAG_SESSION_PACKET <;> simp [ht]
    | mutable m => exact absurd hd (hmiss m)

/-- Witness for C6 at concrete inputs. -/
theorem C6_mdata_miss_error_witness :
    Routing.withMData sampleState emptyVault 4 1 (.getMDataVersion 4 1 7) none
        (fun d v => (.ok d.version, v))
        (fun res => .getMDataVersion res 7) =
      ⟨some 4, emptyVault,
        [.response (.getMDataVersion (.error .noSuchData) 7) (.naeManager 4)
          (.client 2 3)]⟩ :=
  C6_mdata_miss_error Nat sampleState emptyVault 4 1 (.getMDataVersion 4 1 7)
    none (fun d v => (.ok d.version, v)) (fun res => .getMDataVersion res 7)
    rfl rfl rfl rfl
    (by intro d h; simp [emptyVault, Vault.getData, mapFind] at h)

/-- Claim C7: `verify_owner` succeeds exactly when the destination is a
`ClientManager` authority and at least one asserted owner key hashes to its
name; in every other case it returns the "invalid owners" error; and it is
applied to every non-session-packet `put_mdata`, whose result carries the
owner-check error whenever that check fails after mutation authorization. -/
theorem C7_verify_owner :
    (∀ (hash : PublicKey → XorName) (dst : Authority)
        (owners : List PublicKey),
      verifyOwner hash dst owners = .ok () ↔
        ∃ n : XorName, dst = .clientManager n ∧ ∃ k ∈ owners, hash k = n) ∧
    (∀ (hash : PublicKey → XorName) (dst : Authority)
        (owners : List PublicKey),
      verifyOwner hash dst owners = .ok () ∨
        verifyOwner hash dst owners = .error .invalidOwners) ∧
    (∀ (env : Env) (s : RoutingState) (vault : Vault) (dst : Authority)
        (data : MutableData) (msgId : MessageId) (requester : PublicKey)
        (e : ClientError),
      s.runHook (.putMData data msgId requester) = none →
      s.timeoutSimulation = false →
      (verifyNetworkLimits s.maxOpsCountdown).1 = .ok () →
      data.tag ≠ TYPE_TAG_SESSION_PACKET →
      env.authoriseMutation vault dst s.clientKey = .ok () →
      verifyOwner env.hash dst data.owners = .error e →
      Routing.putMData env s vault dst data msgId requester =
        some ⟨(verifyNetworkLimits s.maxOpsCountdown).2, vault,
          [.response (.putMData (.error e) msgId) (.naeManager data.name)
            s.clientAuth]⟩) := by
  refine ⟨?_, ?_, ?_⟩
  · intro hash dst owners
    cases dst with
    | clientManager n =>
        simp [verifyOwner, List.any_eq_true]
    | naeManager n => simp [verifyOwner]
    | client n p => simp [verifyOwner]
  · intro hash dst owners
    cases dst with
    | clientManager n =>
        simp only [verifyOwner]
        by_cases hc : owners.any (fun ownerKey => decide (hash ownerKey = n)) = true
        · left; rw [if_pos hc]
        · right; rw [if_neg hc]
    | naeManager n => right; rfl
    | client n p => right; rfl
  · intro env s vault dst data msgId requester e hhook htimeout hlimits htag
      hauth hown
    unfold Routing.putMData
    rw [hhook]
    simp only [RoutingState.simulateNetworkErrors, htimeout, Bool.false_eq_true,
      if_false, hlimits, if_neg htag, hauth, hown]

/-- Witness for C7 at concrete inputs. -/
theorem C7_verify_owner_witness :
    verifyOwner (Env.hash sampleEnv) (.clientManager 5) [5] = .ok () ∧
    (verifyOwner (Env.hash sampleEnv) (.naeManager 5) [5] = .ok () ∨
      verifyOwner (Env.hash sampleEnv) (.naeManager 5) [5] =
        .error .invalidOwners) ∧
    Routing.putMData sampleEnv sampleState emptyVault (.naeManager 9)
        ⟨4, 1, 0, [1]⟩ 9 1 =
      some ⟨some 4, emptyVault,
        [.response (.putMData (.error .invalidOwners) 9) (.naeManager 4)
          (.client 2 3)]⟩ :=
  ⟨(C7_verify_owner.1 (Env.hash sampleEnv) (.clientManager 5) [5]).mpr
      ⟨5, rfl, 5, by simp, rfl⟩,
   C7_verify_owner.2.1 (Env.hash sampleEnv) (.naeManager 5) [5],
   C7_verify_owner.2.2 sampleEnv sampleState emptyVault (.naeManager 9)
     ⟨4, 1, 0, [1]⟩ 9 1 .invalidOwners rfl rfl rfl (by decide) rfl rfl⟩

theorem verifyOwner_ok_or_invalid (hash : PublicKey → XorName)
    (dst : Authority) (owners : List PublicKey) :
    verifyOwner hash dst owners = .ok () ∨
      verifyOwner hash dst owners = .error .invalidOwners := by
  cases dst with
  | clientManager n =>
      simp only [verifyOwner]
      by_cases hc :
          owners.any (fun ownerKey => decide (hash ownerKey = n)) = true
      · left; rw [if_pos hc]
      · right; rw [if_neg hc]
  | naeManager n => right; rfl
  | client n p => right; rfl

theorem changeMDataOwner_denied_stored (env : Env) (s : RoutingState)
    (vault : Vault) (dstName : XorName) (name : XorName) (tag : Nat)
    (newOwner : PublicKey) (version : Nat) (msgId : MessageId)
    (d : MutableData)
    (hhook : s.runHook (.changeMDataOwner name tag [newOwner] version msgId)
      = none)
    (htimeout : s.timeoutSimulation = false)
    (hlimits : (verifyNetworkLimits s.maxOpsCountdown).1 = .ok ())
    (hd : vault.getData (.mutable name tag) = some (.mutable d))
    (hauth : env.authoriseMutation vault (.clientManager dstName) s.clientKey
      = .ok ())
    (hown : verifyOwner env.hash (.clientManager dstName) d.owners =
      .error .invalidOwners) :
    Routing.changeMDataOwner env s vault (.clientManager dstName) name tag
      [newOwner] version msgId =
      ⟨(verifyNetworkLimits s.maxOpsCountdown).2, vault,
        [.response (.changeMDataOwner (.error .accessDenied) msgId)
          (.naeManager name) s.clientAuth]⟩ := by
  unfold Routing.changeMDataOwner Routing.mutateMData Routing.withMData
  simp only [hhook, RoutingState.simulateNetworkErrors, htimeout,
    Bool.false_eq_true, if_false, hlimits, RoutingState.verifyRequester,
    hd, hauth, hown, if_true]

theorem changeMDataOwner_denied_requester (env : Env) (s : RoutingState)
    (vault : Vault) (dstName : XorName) (name : XorName) (tag : Nat)
    (newOwner : PublicKey) (version : Nat) (msgId : MessageId)
    (d : MutableData)
    (hhook : s.runHook (.changeMDataOwner name tag [newOwner] version msgId)
      = none)
    (htimeout : s.timeoutSimulation = false)
    (hlimits : (verifyNetworkLimits s.maxOpsCountdown).1 = .ok ())
    (hd : vault.getData (.mutable name tag) = some (.mutable d))
    (hauth : env.authoriseMutation vault (.clientManager dstName) s.clientKey
      = .ok ())
    (hown : verifyOwner env.hash (.clientManager dstName) d.owners = .ok ())
    (hneq : env.hash s.clientKey ≠ dstName) :
    Routing.changeMDataOwner env s vault (.clientManager dstName) name tag
      [newOwner] version msgId =
      ⟨(verifyNetworkLimits s.maxOpsCountdown).2, vault,
        [.response (.changeMDataOwner (.error .accessDenied) msgId)
          (.naeManager name) s.clientAuth]⟩ := by
  unfold Routing.changeMDataOwner Routing.mutateMData Routing.withMData
  simp only [hhook, RoutingState.simulateNetworkErrors, htimeout,
    Bool.false_eq_true, if_false, hlimits, RoutingState.verifyRequester,
    hd, hauth, hown, ne_eq, hneq, not_false_eq_true, if_true]

/-- Claim C8: for a singleton-new-owner `change_mdata_owner` that reaches its
record transformation, an "invalid owners" outcome of the owner check on the
stored record is remapped to "access denied"; even with the owner check
passing, a requester whose hashed signing key differs from the destination
name gets "access denied"; and the Store is changed only when both checks
pass. -/
theorem C8_change_owner_checks :
    ∀ (env : Env) (s : RoutingState) (vault : Vault) (dstName : XorName)
      (name : XorName) (tag : Nat) (newOwner : PublicKey) (version : Nat)
      (msgId : MessageId) (d : MutableData),
      s.runHook (.changeMDataOwner name tag [newOwner] version msgId) = none →
      s.timeoutSimulation = false →
      (verifyNetworkLimits s.maxOpsCountdown).1 = .ok () →
      vault.getData (.mutable name tag) = some (.mutable d) →
      env.authoriseMutation vault (.clientManager dstName) s.clientKey =
        .ok () →
      ((verifyOwner env.hash (.clientManager dstName) d.owners =
          .error .invalidOwners →
          Routing.changeMDataOwner env s vault (.clientManager dstName) name
            tag [newOwner] version msgId =
            ⟨(verifyNetworkLimits s.maxOpsCountdown).2, vault,
              [.response (.changeMDataOwner (.error .accessDenied) msgId)
                (.naeManager name) s.clientAuth]⟩) ∧
        (verifyOwner env.hash (.clientManager dstName) d.owners = .ok () →
          env.hash s.clientKey ≠ dstName →
          Routing.changeMDataOwner env s vault (.clientManager dstName) name
            tag [newOwner] version msgId =
            ⟨(verifyNetworkLimits s.maxOpsCountdown).2, vault,
              [.response (.changeMDataOwner (.error .accessDenied) msgId)
                (.naeManager name) s.clientAuth]⟩) ∧
        (verifyOwner env.hash (.clientManager dstName) d.owners ≠ .ok () ∨
            env.hash s.clientKey ≠ dstName →
          (Routing.changeMDataOwner env s vault (.clientManager dstName) name
            tag [newOwner] version msgId).vault = vault)) := by
  intro env s vault dstName name tag newOwner version msgId d hhook htimeout
    hlimits hd hauth
  refine ⟨?_, ?_, ?_⟩
  · intro hown
    exact changeMDataOwner_denied_stored env s vault dstName name tag newOwner
      version msgId d hhook htimeout hlimits hd hauth hown
  · intro hown hneq
    exact changeMDataOwner_denied_requester env s vault dstName name tag
      newOwner version msgId d hhook htimeout hlimits hd hauth hown hneq
  · intro hcase
    rcases hcase with hno | hneq
    · rcases verifyOwner_ok_or_invalid env.hash (.clientManager dstName)
        d.owners with hok | hinv
      · exact absurd hok hno
      · rw [changeMDataOwner_denied_stored env s vault dstName name tag
          newOwner version msgId d hhook htimeout hlimits hd hauth hinv]
    · rcases verifyOwner_ok_or_invalid env.hash (.clientManager dstName)
        d.owners with hok | hinv
      · rw [changeMDataOwner_denied_requester env s vault dstName name tag
          newOwner version msgId d hhook htimeout hlimits hd hauth hok hneq]
      · rw [changeMDataOwner_denied_stored env s vault dstName name tag
          newOwner version msgId d hhook htimeout hlimits hd hauth hinv]

/-- Witness for C8 at concrete inputs: the stored owner (key 99) does not
hash to the destination name 10, so the remapped "access denied" is
returned and the Store is unchanged. -/
theorem C8_change_owner_checks_witness :
    Routing.changeMDataOwner sampleEnv sampleState c8Vault (.clientManager 10)
        4 1 [7] 1 9 =
      ⟨some 4, c8Vault,
        [.response (.changeMDataOwner (.error .accessDenied) 9)
          (.naeManager 4) (.client 2 3)]⟩ ∧
    (Routing.changeMDataOwner sampleEnv sampleState c8Vault (.clientManager 10)
        4 1 [7] 1 9).vault = c8Vault :=
  ⟨(C8_change_owner_checks sampleEnv sampleState c8Vault 10 4 1 7 1 9
      c8Record rfl rfl rfl (by decide) rfl).1 rfl,
   (C8_change_owner_checks sampleEnv sampleState c8Vault 10 4 1 7 1 9
      c8Record rfl rfl rfl (by decide) rfl).2.2 (Or.inl (by decide))⟩

/-- Witness for C10 at concrete inputs. -/
theorem C10_entry_actions_witness :
    mapFind [1] (mdataEntryActionsInsert [] [1] [9]) =
      some (.ins { content := [9], entry_version := 0 }) ∧
    mapFind [1] (addAction [([1], .del 4)] [1] (.update ⟨[2], 5⟩)) =
      some (.update ⟨[2], 5⟩) ∧
    (((addAction [([1], .del 4)] [1] (.update ⟨[2], 5⟩)).map Prod.fst).Nodup ∧
      countKey [1] (addAction [([1], .del 4)] [1] (.update ⟨[2], 5⟩)) ≤ 1) :=
  ⟨C10_entry_actions.1 [] [1] [9],
   C10_entry_actions.2.1 [([1], .del 4)] [1] (.update ⟨[2], 5⟩),
   (C10_entry_actions.2.2 [([1], .del 4)] [1] (.update ⟨[2], 5⟩) (by decide)).1,
   (C10_entry_actions.2.2 [([1], .del 4)] [1] (.update ⟨[2], 5⟩) (by decide)).2 [1]⟩
